import Mathlib

/-!
Verification of the roqoqo two-qubit and multi-qubit gate operations
(`src/roqoqo/src/operations/two_qubit_gate_operations.rs` and the integration
test `src/roqoqo/tests/integration/operations/multi_qubit_gate_operations.rs`).

The shallow embedding translates every gate struct, its `unitary_matrix`
and its `kak_decomposition` into Lean definitions over `ℝ` and `ℂ`.
Concrete `CalculatorFloat` parameters are embedded as real numbers
(`f64` arithmetic is modelled by exact real arithmetic); symbolic
parameters appear only where a claim is about them, via the
`CalculatorFloat` model below.
-/

set_option maxHeartbeats 1600000

noncomputable section

namespace Roqoqo

open Real Complex Matrix

abbrev Mat2 := Matrix (Fin 2) (Fin 2) ℂ

abbrev Mat4 := Matrix (Fin 4) (Fin 4) ℂ

/-- Modelled from the spec: the scalar layer (qoqo_calculator, not part of this
repository's sources) is "either a finite real number or an opaque symbolic
expression".  Symbolic expressions are modelled as an opaque syntax tree; no
algebraic simplification is specified for them. -/
inductive CalcExpr
  | const (x : ℝ)
  | var (name : String)
  | mulE (a b : CalcExpr)

/-- Modelled from the spec: the tagged union of a finite real number and a
symbolic expression ("Real scalar `R`"). -/
inductive CalculatorFloat
  | Float (x : ℝ)
  | Symbolic (e : CalcExpr)

/-- View of a scalar as a bare expression, used to build composite symbolic
expressions. -/
def CalculatorFloat.toExpr : CalculatorFloat → CalcExpr
  | .Float x => .const x
  | .Symbolic e => e

/-- Modelled from the spec: multiplication on the scalar layer.  "Operations
propagate concreteness (both concrete ⇒ concrete result)"; a product with a
symbolic operand is the opaque product expression. -/
def CalculatorFloat.mul : CalculatorFloat → CalculatorFloat → CalculatorFloat
  | .Float x, .Float y => .Float (x * y)
  | a, b => .Symbolic (.mulE a.toExpr b.toExpr)

/-- Operations that appear inside the correction/compilation `Circuit`s of this
file: the consumed single-qubit constructors of the spec (`RotateX`, `RotateY`,
`RotateZ`, `Hadamard`, `TGate`, `PhaseShiftState1`) and the two-qubit `CNOT`
used by the multi-qubit compilations. -/
inductive Operation
  | RotateX (qubit : ℕ) (theta : ℝ)
  | RotateY (qubit : ℕ) (theta : ℝ)
  | RotateZ (qubit : ℕ) (theta : ℝ)
  | Hadamard (qubit : ℕ)
  | TGate (qubit : ℕ)
  | PhaseShiftState1 (qubit : ℕ) (theta : ℝ)
  | CNOTGate (control target : ℕ)

/-- A `Circuit` is an ordered sequence of operations (applied left to right). -/
abbrev Circuit := List Operation

/-- The KAK decomposition record of a two-qubit gate
(struct `KakDecomposition` in the source). -/
structure KakDecomposition where
  global_phase : ℝ
  k_vector : Fin 3 → ℝ
  circuit_before : Option Circuit
  circuit_after : Option Circuit

/-- Struct `CNOT` in the source. -/
structure CNOT where
  control : ℕ
  target : ℕ

/-- Struct `SWAP` in the source. -/
structure SWAP where
  control : ℕ
  target : ℕ

/-- Struct `ISwap` in the source. -/
structure ISwap where
  control : ℕ
  target : ℕ

/-- Struct `FSwap` in the source. -/
structure FSwap where
  control : ℕ
  target : ℕ

/-- Struct `SqrtISwap` in the source. -/
structure SqrtISwap where
  control : ℕ
  target : ℕ

/-- Struct `InvSqrtISwap` in the source. -/
structure InvSqrtISwap where
  control : ℕ
  target : ℕ

/-- Struct `XY` in the source (rotation angle `theta`). -/
structure XY where
  control : ℕ
  target : ℕ
  theta : ℝ

/-- Struct `ControlledPhaseShift` in the source (rotation angle `theta`). -/
structure ControlledPhaseShift where
  control : ℕ
  target : ℕ
  theta : ℝ

/-- Struct `ControlledPauliY` in the source. -/
structure ControlledPauliY where
  control : ℕ
  target : ℕ

/-- Struct `ControlledPauliZ` in the source. -/
structure ControlledPauliZ where
  control : ℕ
  target : ℕ

/-- Struct `MolmerSorensenXX` in the source. -/
structure MolmerSorensenXX where
  control : ℕ
  target : ℕ

/-- Struct `VariableMSXX` in the source (rotation angle `theta`). -/
structure VariableMSXX where
  control : ℕ
  target : ℕ
  theta : ℝ

/-- Struct `GivensRotation` in the source (angle `theta`, phase `phi`). -/
structure GivensRotation where
  control : ℕ
  target : ℕ
  theta : ℝ
  phi : ℝ

/-- Struct `GivensRotationLittleEndian` in the source. -/
structure GivensRotationLittleEndian where
  control : ℕ
  target : ℕ
  theta : ℝ
  phi : ℝ

/-- Struct `Qsim` in the source (prefactors `x`, `y`, `z`). -/
structure Qsim where
  control : ℕ
  target : ℕ
  x : ℝ
  y : ℝ
  z : ℝ

/-- Struct `Fsim` in the source (hopping `t`, interaction `u`, Bogoliubov `delta`). -/
structure Fsim where
  control : ℕ
  target : ℕ
  t : ℝ
  u : ℝ
  delta : ℝ

/-- Struct `SpinInteraction` in the source (prefactors `x`, `y`, `z`). -/
structure SpinInteraction where
  control : ℕ
  target : ℕ
  x : ℝ
  y : ℝ
  z : ℝ

/-- Struct `Bogoliubov` in the source. -/
structure Bogoliubov where
  control : ℕ
  target : ℕ
  delta_real : ℝ
  delta_imag : ℝ

/-- Struct `PMInteraction` in the source (strength `t`). -/
structure PMInteraction where
  control : ℕ
  target : ℕ
  t : ℝ

/-- Struct `ComplexPMInteraction` in the source. -/
structure ComplexPMInteraction where
  control : ℕ
  target : ℕ
  t_real : ℝ
  t_imag : ℝ

/-- Struct `PhaseShiftedControlledZ` in the source (single qubit phase `phi`). -/
structure PhaseShiftedControlledZ where
  control : ℕ
  target : ℕ
  phi : ℝ

/-- Struct `MultiQubitMS`: multi-qubit Mølmer–Sørensen gate, from the
integration test and §4.3 of the spec.  The angle is kept as a full
`CalculatorFloat` because the tests exercise it symbolically. -/
structure MultiQubitMS where
  qubits : List ℕ
  theta : CalculatorFloat

/-- Struct `MultiQubitZZ`, from the integration test and §4.3 of the spec. -/
structure MultiQubitZZ where
  qubits : List ℕ
  theta : CalculatorFloat

/-- Struct `MultiCNOT`, from the integration test and §4.3 of the spec. -/
structure MultiCNOT where
  qubits : List ℕ

/-! ### Tag constants (the `TAGS_...` arrays of the source) -/

def TAGS_CNOT : List String := ["Operation", "GateOperation", "TwoQubitGateOperation", "CNOT"]

def TAGS_SWAP : List String := ["Operation", "GateOperation", "TwoQubitGateOperation", "SWAP"]

def TAGS_ISwap : List String := ["Operation", "GateOperation", "TwoQubitGateOperation", "ISwap"]

def TAGS_FSwap : List String := ["Operation", "GateOperation", "TwoQubitGateOperation", "FSwap"]

def TAGS_SqrtISwap : List String :=
  ["Operation", "GateOperation", "TwoQubitGateOperation", "SqrtISwap"]

def TAGS_InvSqrtISwap : List String :=
  ["Operation", "GateOperation", "TwoQubitGateOperation", "InvSqrtISwap"]

def TAGS_XY : List String :=
  ["Operation", "GateOperation", "TwoQubitGateOperation", "Rotation", "XY"]

def TAGS_ControlledPhaseShift : List String :=
  ["Operation", "GateOperation", "TwoQubitGateOperation", "Rotation", "ControlledPhaseShift"]

def TAGS_ControlledPauliY : List String :=
  ["Operation", "GateOperation", "TwoQubitGateOperation", "ControlledPauliY"]

def TAGS_ControlledPauliZ : List String :=
  ["Operation", "GateOperation", "TwoQubitGateOperation", "ControlledPauliZ"]

def TAGS_MolmerSorensenXX : List String :=
  ["Operation", "GateOperation", "TwoQubitGateOperation", "MolmerSorensenXX"]

def TAGS_VariableMSXX : List String :=
  ["Operation", "GateOperation", "TwoQubitGateOperation", "Rotation", "VariableMSXX"]

def TAGS_GivensRotation : List String :=
  ["Operation", "GateOperation", "TwoQubitGateOperation", "Rotation", "GivensRotation"]

def TAGS_GivensRotationLittleEndian : List String :=
  ["Operation", "GateOperation", "TwoQubitGateOperation", "Rotation",
    "GivensRotationLittleEndian"]

def TAGS_Qsim : List String := ["Operation", "GateOperation", "TwoQubitGateOperation", "Qsim"]

def TAGS_Fsim : List String := ["Operation", "GateOperation", "TwoQubitGateOperation", "Fsim"]

def TAGS_SpinInteraction : List String :=
  ["Operation", "GateOperation", "TwoQubitGateOperation", "SpinInteraction"]

def TAGS_Bogoliubov : List String :=
  ["Operation", "GateOperation", "TwoQubitGateOperation", "Bogoliubov"]

def TAGS_PMInteraction : List String :=
  ["Operation", "GateOperation", "TwoQubitGateOperation", "PMInteraction"]

def TAGS_ComplexPMInteraction : List String :=
  ["Operation", "GateOperation", "TwoQubitGateOperation", "ComplexPMInteraction"]

def TAGS_PhaseShiftedControlledZ : List String :=
  ["Operation", "GateOperation", "TwoQubitGateOperation", "PhaseShiftedControlledZ"]

/-- Tags of `MultiQubitMS`, as asserted by the integration test. -/
def TAGS_MultiQubitMS : List String :=
  ["Operation", "GateOperation", "MultiQubitGateOperation", "MultiQubitMS"]

/-- Tags of `MultiQubitZZ`, as asserted by the integration test. -/
def TAGS_MultiQubitZZ : List String :=
  ["Operation", "GateOperation", "MultiQubitGateOperation", "MultiQubitZZ"]

/-- Tags of `MultiCNOT`, as asserted by the integration test. -/
def TAGS_MultiCNOT : List String :=
  ["Operation", "GateOperation", "MultiQubitGateOperation", "MultiCNOT"]

/-! ### Unitary matrices (`unitary_matrix` impls of the source).

`Complex64::new(a, b)` is translated as `(a : ℂ) + (b : ℂ) * I` (or the obvious
simplification when a component is a literal zero).  The `f64` parameters of the
embedding are exact reals, so the fallible `f64::try_from` conversions of the
source always succeed and the `Ok` payload is returned directly. -/

/-- `norm` of a `Complex64`/`CalculatorComplex` built from real and imaginary parts. -/
def complexNorm (re im : ℝ) : ℝ := Real.sqrt (re^2 + im^2)

/-- `arg` of a `Complex64`/`CalculatorComplex` built from real and imaginary parts. -/
def complexArg (re im : ℝ) : ℝ := Complex.arg ((re : ℂ) + (im : ℂ) * I)

def CNOT.unitary_matrix (_g : CNOT) : Mat4 :=
  !![1, 0, 0, 0;
     0, 1, 0, 0;
     0, 0, 0, 1;
     0, 0, 1, 0]

def SWAP.unitary_matrix (_g : SWAP) : Mat4 :=
  !![1, 0, 0, 0;
     0, 0, 1, 0;
     0, 1, 0, 0;
     0, 0, 0, 1]

def ISwap.unitary_matrix (_g : ISwap) : Mat4 :=
  !![1, 0, 0, 0;
     0, 0, I, 0;
     0, I, 0, 0;
     0, 0, 0, 1]

def FSwap.unitary_matrix (_g : FSwap) : Mat4 :=
  !![1, 0, 0, 0;
     0, 0, 1, 0;
     0, 1, 0, 0;
     0, 0, 0, -1]

def SqrtISwap.unitary_matrix (_g : SqrtISwap) : Mat4 :=
  !![1, 0, 0, 0;
     0, (1/Real.sqrt 2 : ℂ), (1/Real.sqrt 2 : ℝ) * I, 0;
     0, (1/Real.sqrt 2 : ℝ) * I, (1/Real.sqrt 2 : ℂ), 0;
     0, 0, 0, 1]

def InvSqrtISwap.unitary_matrix (_g : InvSqrtISwap) : Mat4 :=
  !![1, 0, 0, 0;
     0, (1/Real.sqrt 2 : ℂ), ((-1) * (1/Real.sqrt 2) : ℝ) * I, 0;
     0, ((-1) * (1/Real.sqrt 2) : ℝ) * I, (1/Real.sqrt 2 : ℂ), 0;
     0, 0, 0, 1]

def XY.unitary_matrix (g : XY) : Mat4 :=
  !![1, 0, 0, 0;
     0, (Real.cos (g.theta/2) : ℂ), (Real.sin (g.theta/2) : ℝ) * I, 0;
     0, (Real.sin (g.theta/2) : ℝ) * I, (Real.cos (g.theta/2) : ℂ), 0;
     0, 0, 0, 1]

def ControlledPhaseShift.unitary_matrix (g : ControlledPhaseShift) : Mat4 :=
  !![1, 0, 0, 0;
     0, 1, 0, 0;
     0, 0, 1, 0;
     0, 0, 0, (Real.cos g.theta : ℂ) + (Real.sin g.theta : ℝ) * I]

def ControlledPauliY.unitary_matrix (_g : ControlledPauliY) : Mat4 :=
  !![1, 0, 0, 0;
     0, 1, 0, 0;
     0, 0, 0, -I;
     0, 0, I, 0]

def ControlledPauliZ.unitary_matrix (_g : ControlledPauliZ) : Mat4 :=
  !![1, 0, 0, 0;
     0, 1, 0, 0;
     0, 0, 1, 0;
     0, 0, 0, -1]

def MolmerSorensenXX.unitary_matrix (_g : MolmerSorensenXX) : Mat4 :=
  !![(1/Real.sqrt 2 : ℂ), 0, 0, ((-1) * (1/Real.sqrt 2) : ℝ) * I;
     0, (1/Real.sqrt 2 : ℂ), ((-1) * (1/Real.sqrt 2) : ℝ) * I, 0;
     0, ((-1) * (1/Real.sqrt 2) : ℝ) * I, (1/Real.sqrt 2 : ℂ), 0;
     ((-1) * (1/Real.sqrt 2) : ℝ) * I, 0, 0, (1/Real.sqrt 2 : ℂ)]

def VariableMSXX.unitary_matrix (g : VariableMSXX) : Mat4 :=
  !![(Real.cos (g.theta/2) : ℂ), 0, 0, ((-1) * Real.sin (g.theta/2) : ℝ) * I;
     0, (Real.cos (g.theta/2) : ℂ), ((-1) * Real.sin (g.theta/2) : ℝ) * I, 0;
     0, ((-1) * Real.sin (g.theta/2) : ℝ) * I, (Real.cos (g.theta/2) : ℂ), 0;
     ((-1) * Real.sin (g.theta/2) : ℝ) * I, 0, 0, (Real.cos (g.theta/2) : ℂ)]

def GivensRotation.unitary_matrix (g : GivensRotation) : Mat4 :=
  !![1, 0, 0, 0;
     0, (Real.cos g.theta * Real.cos g.phi : ℂ) + (Real.cos g.theta * Real.sin g.phi : ℝ) * I,
       (Real.sin g.theta : ℂ), 0;
     0, ((-1) * Real.sin g.theta * Real.cos g.phi : ℂ) +
       ((-1) * Real.sin g.theta * Real.sin g.phi : ℝ) * I, (Real.cos g.theta : ℂ), 0;
     0, 0, 0, (Real.cos g.phi : ℂ) + (Real.sin g.phi : ℝ) * I]

def GivensRotationLittleEndian.unitary_matrix (g : GivensRotationLittleEndian) : Mat4 :=
  !![1, 0, 0, 0;
     0, (Real.cos g.theta : ℂ), (Real.sin g.theta : ℂ), 0;
     0, ((-1) * Real.sin g.theta * Real.cos g.phi : ℂ) +
       ((-1) * Real.sin g.theta * Real.sin g.phi : ℝ) * I,
       (Real.cos g.theta * Real.cos g.phi : ℂ) + (Real.cos g.theta * Real.sin g.phi : ℝ) * I, 0;
     0, 0, 0, (Real.cos g.phi : ℂ) + (Real.sin g.phi : ℝ) * I]

def Qsim.unitary_matrix (g : Qsim) : Mat4 :=
  !![(Real.cos (g.x - g.y) * Real.cos g.z : ℂ) +
       ((-1) * Real.cos (g.x - g.y) * Real.sin g.z : ℝ) * I, 0, 0,
     ((-1) * Real.sin (g.x - g.y) * Real.sin g.z : ℂ) +
       ((-1) * Real.sin (g.x - g.y) * Real.cos g.z : ℝ) * I;
     0, (Real.sin (g.x + g.y) * Real.sin g.z : ℂ) +
       ((-1) * Real.sin (g.x + g.y) * Real.cos g.z : ℝ) * I,
     (Real.cos (g.x + g.y) * Real.cos g.z : ℂ) +
       (Real.cos (g.x + g.y) * Real.sin g.z : ℝ) * I, 0;
     0, (Real.cos (g.x + g.y) * Real.cos g.z : ℂ) +
       (Real.cos (g.x + g.y) * Real.sin g.z : ℝ) * I,
     (Real.sin (g.x + g.y) * Real.sin g.z : ℂ) +
       ((-1) * Real.sin (g.x + g.y) * Real.cos g.z : ℝ) * I, 0;
     ((-1) * Real.sin (g.x - g.y) * Real.sin g.z : ℂ) +
       ((-1) * Real.sin (g.x - g.y) * Real.cos g.z : ℝ) * I, 0, 0,
     (Real.cos (g.x - g.y) * Real.cos g.z : ℂ) +
       ((-1) * Real.cos (g.x - g.y) * Real.sin g.z : ℝ) * I]

def Fsim.unitary_matrix (g : Fsim) : Mat4 :=
  !![(Real.cos g.delta : ℂ), 0, 0, (Real.sin g.delta : ℝ) * I;
     0, ((-1) * Real.sin g.t : ℝ) * I, (Real.cos g.t : ℂ), 0;
     0, (Real.cos g.t : ℂ), ((-1) * Real.sin g.t : ℝ) * I, 0;
     ((-1) * Real.sin g.delta * Real.sin g.u : ℂ) +
       ((-1) * Real.sin g.delta * Real.cos g.u : ℝ) * I, 0, 0,
     ((-1) * Real.cos g.delta * Real.cos g.u : ℂ) + (Real.cos g.delta * Real.sin g.u : ℝ) * I]

def SpinInteraction.unitary_matrix (g : SpinInteraction) : Mat4 :=
  !![(Real.cos (g.x - g.y) * Real.cos g.z : ℂ) +
       ((-1) * Real.cos (g.x - g.y) * Real.sin g.z : ℝ) * I, 0, 0,
     ((-1) * Real.sin (g.x - g.y) * Real.sin g.z : ℂ) +
       ((-1) * Real.sin (g.x - g.y) * Real.cos g.z : ℝ) * I;
     0, (Real.cos (g.x + g.y) * Real.cos g.z : ℂ) +
       (Real.cos (g.x + g.y) * Real.sin g.z : ℝ) * I,
     (Real.sin (g.x + g.y) * Real.sin g.z : ℂ) +
       ((-1) * Real.sin (g.x + g.y) * Real.cos g.z : ℝ) * I, 0;
     0, (Real.sin (g.x + g.y) * Real.sin g.z : ℂ) +
       ((-1) * Real.sin (g.x + g.y) * Real.cos g.z : ℝ) * I,
     (Real.cos (g.x + g.y) * Real.cos g.z : ℂ) +
       (Real.cos (g.x + g.y) * Real.sin g.z : ℝ) * I, 0;
     ((-1) * Real.sin (g.x - g.y) * Real.sin g.z : ℂ) +
       ((-1) * Real.sin (g.x - g.y) * Real.cos g.z : ℝ) * I, 0, 0,
     (Real.cos (g.x - g.y) * Real.cos g.z : ℂ) +
       ((-1) * Real.cos (g.x - g.y) * Real.sin g.z : ℝ) * I]

def Bogoliubov.unitary_matrix (g : Bogoliubov) : Mat4 :=
  !![(Real.cos (complexNorm g.delta_real g.delta_imag) : ℂ), 0, 0,
     ((-1) * Real.sin (complexNorm g.delta_real g.delta_imag) *
         Real.sin (complexArg g.delta_real g.delta_imag) : ℂ) +
       (Real.sin (complexNorm g.delta_real g.delta_imag) *
         Real.cos (complexArg g.delta_real g.delta_imag) : ℝ) * I;
     0, 1, 0, 0;
     0, 0, 1, 0;
     (Real.sin (complexNorm g.delta_real g.delta_imag) *
         Real.sin (complexArg g.delta_real g.delta_imag) : ℂ) +
       (Real.sin (complexNorm g.delta_real g.delta_imag) *
         Real.cos (complexArg g.delta_real g.delta_imag) : ℝ) * I, 0, 0,
     (Real.cos (complexNorm g.delta_real g.delta_imag) : ℂ)]

def PMInteraction.unitary_matrix (g : PMInteraction) : Mat4 :=
  !![1, 0, 0, 0;
     0, (Real.cos g.t : ℂ), ((-1) * Real.sin g.t : ℝ) * I, 0;
     0, ((-1) * Real.sin g.t : ℝ) * I, (Real.cos g.t : ℂ), 0;
     0, 0, 0, 1]

def ComplexPMInteraction.unitary_matrix (g : ComplexPMInteraction) : Mat4 :=
  !![1, 0, 0, 0;
     0, (Real.cos (complexNorm g.t_real g.t_imag) : ℂ),
     ((-1) * Real.sin (complexNorm g.t_real g.t_imag) *
         Real.sin (complexArg g.t_real g.t_imag) : ℂ) +
       ((-1) * Real.sin (complexNorm g.t_real g.t_imag) *
         Real.cos (complexArg g.t_real g.t_imag) : ℝ) * I, 0;
     0, (Real.sin (complexNorm g.t_real g.t_imag) *
         Real.sin (complexArg g.t_real g.t_imag) : ℂ) +
       ((-1) * Real.sin (complexNorm g.t_real g.t_imag) *
         Real.cos (complexArg g.t_real g.t_imag) : ℝ) * I,
     (Real.cos (complexNorm g.t_real g.t_imag) : ℂ), 0;
     0, 0, 0, 1]

def PhaseShiftedControlledZ.unitary_matrix (g : PhaseShiftedControlledZ) : Mat4 :=
  !![1, 0, 0, 0;
     0, (Real.cos g.phi : ℂ) + (Real.sin g.phi : ℝ) * I, 0, 0;
     0, 0, (Real.cos g.phi : ℂ) + (Real.sin g.phi : ℝ) * I, 0;
     0, 0, 0, (Real.cos (2 * g.phi - π) : ℂ) + (Real.sin (2 * g.phi - π) : ℝ) * I]

/-! ### KAK decompositions (`kak_decomposition` impls of the source). -/

def CNOT.kak_decomposition (g : CNOT) : KakDecomposition where
  global_phase := π/4
  k_vector := ![π/4, 0, 0]
  circuit_before := some [.RotateZ g.control (π/2), .RotateY g.control (π/2),
    .RotateX g.target (π/2)]
  circuit_after := some [.RotateY g.control ((π/2) * (-1))]

def SWAP.kak_decomposition (_g : SWAP) : KakDecomposition where
  global_phase := (-1) * π / 4
  k_vector := ![π/4, π/4, π/4]
  circuit_before := none
  circuit_after := none

def ISwap.kak_decomposition (_g : ISwap) : KakDecomposition where
  global_phase := 0
  k_vector := ![π/4, π/4, 0]
  circuit_before := none
  circuit_after := none

def FSwap.kak_decomposition (g : FSwap) : KakDecomposition where
  global_phase := (π/2) * (-1)
  k_vector := ![π/4, π/4, 0]
  circuit_before := some [.RotateZ g.control ((π/2) * (-1)), .RotateZ g.target ((π/2) * (-1))]
  circuit_after := none

def SqrtISwap.kak_decomposition (_g : SqrtISwap) : KakDecomposition where
  global_phase := 0
  k_vector := ![π/8, π/8, 0]
  circuit_before := none
  circuit_after := none

def InvSqrtISwap.kak_decomposition (_g : InvSqrtISwap) : KakDecomposition where
  global_phase := 0
  k_vector := ![(-1) * π / 8, (-1) * π / 8, 0]
  circuit_before := none
  circuit_after := none

def XY.kak_decomposition (g : XY) : KakDecomposition where
  global_phase := 0
  k_vector := ![g.theta / 4, g.theta / 4, 0]
  circuit_before := none
  circuit_after := none

def ControlledPhaseShift.kak_decomposition (g : ControlledPhaseShift) : KakDecomposition where
  global_phase := g.theta / 4
  k_vector := ![0, 0, g.theta / 4]
  circuit_before := some [.RotateZ g.control (g.theta / 2), .RotateZ g.target (g.theta / 2)]
  circuit_after := none

def ControlledPauliY.kak_decomposition (g : ControlledPauliY) : KakDecomposition where
  global_phase := π/4
  k_vector := ![0, 0, π/4]
  circuit_before := some [.RotateZ g.control (π/2), .RotateY g.target (π/2),
    .RotateX g.target (π/2)]
  circuit_after := some [.RotateX g.target ((π/2) * (-1))]

def ControlledPauliZ.kak_decomposition (g : ControlledPauliZ) : KakDecomposition where
  global_phase := π/4
  k_vector := ![0, 0, π/4]
  circuit_before := some [.RotateZ g.control (π/2), .RotateZ g.target (π/2)]
  circuit_after := none

def MolmerSorensenXX.kak_decomposition (_g : MolmerSorensenXX) : KakDecomposition where
  global_phase := 0
  k_vector := ![(-1) * π / 4, 0, 0]
  circuit_before := none
  circuit_after := none

def VariableMSXX.kak_decomposition (g : VariableMSXX) : KakDecomposition where
  global_phase := 0
  k_vector := ![g.theta * (-1/2), 0, 0]
  circuit_before := none
  circuit_after := none

def GivensRotation.kak_decomposition (g : GivensRotation) : KakDecomposition where
  global_phase := g.phi / 2
  k_vector := ![g.theta / 2, g.theta / 2, 0]
  circuit_before := some [.RotateZ g.target (g.phi + π/2)]
  circuit_after := some [.RotateZ g.target ((π/2) * (-1))]

def GivensRotationLittleEndian.kak_decomposition (g : GivensRotationLittleEndian) :
    KakDecomposition where
  global_phase := g.phi / 2
  k_vector := ![g.theta / 2, g.theta / 2, 0]
  circuit_before := some [.RotateZ g.control ((π/2) * (-1))]
  circuit_after := some [.RotateZ g.control (g.phi + π/2)]

def Qsim.kak_decomposition (g : Qsim) : KakDecomposition where
  global_phase := (-1) * π / 4
  k_vector := ![g.x * (-1) + π/4, g.y * (-1) + π/4, g.z * (-1) + π/4]
  circuit_before := none
  circuit_after := none

def Fsim.kak_decomposition (g : Fsim) : KakDecomposition where
  global_phase := g.u / (-4) - π/2
  k_vector := ![g.t / (-2) + g.delta / 2 + π/4, g.t / (-2) - g.delta / 2 + π/4, g.u / (-4)]
  circuit_before := none
  circuit_after := some [.RotateZ g.control (g.u / (-2) - π/2), .RotateZ g.target (g.u / (-2) - π/2)]

def SpinInteraction.kak_decomposition (g : SpinInteraction) : KakDecomposition where
  global_phase := 0
  k_vector := ![g.x * (-1), g.y * (-1), g.z * (-1)]
  circuit_before := none
  circuit_after := none

def Bogoliubov.kak_decomposition (g : Bogoliubov) : KakDecomposition where
  global_phase := 0
  k_vector := ![complexNorm g.delta_real g.delta_imag / 2,
    complexNorm g.delta_real g.delta_imag / (-2), 0]
  circuit_before := some [.RotateZ g.target (complexArg g.delta_real g.delta_imag)]
  circuit_after := some [.RotateZ g.target (complexArg g.delta_real g.delta_imag * (-1))]

def PMInteraction.kak_decomposition (g : PMInteraction) : KakDecomposition where
  global_phase := 0
  k_vector := ![g.t / (-2), g.t / (-2), 0]
  circuit_before := none
  circuit_after := none

def ComplexPMInteraction.kak_decomposition (g : ComplexPMInteraction) : KakDecomposition where
  global_phase := 0
  k_vector := ![complexNorm g.t_real g.t_imag / (-2), complexNorm g.t_real g.t_imag / (-2), 0]
  circuit_before := some [.RotateZ g.target (complexArg g.t_real g.t_imag)]
  circuit_after := some [.RotateZ g.target (complexArg g.t_real g.t_imag * (-1))]

def PhaseShiftedControlledZ.kak_decomposition (g : PhaseShiftedControlledZ) :
    KakDecomposition where
  global_phase := π/4 + g.phi
  k_vector := ![0, 0, π/4]
  circuit_before := some [.RotateZ g.control (π/2), .RotateZ g.target (π/2)]
  circuit_after := some [.RotateZ g.control g.phi, .RotateZ g.target g.phi]

/-! ### The canonical non-local block and its closed form -/

/-- The Pauli product `X ⊗ X` (basis `|control target⟩`, control most significant). -/
def sigmaXX : Mat4 := !![0,0,0,1; 0,0,1,0; 0,1,0,0; 1,0,0,0]

/-- The Pauli product `Y ⊗ Y`. -/
def sigmaYY : Mat4 := !![0,0,0,-1; 0,0,1,0; 0,1,0,0; -1,0,0,0]

/-- The Pauli product `Z ⊗ Z`. -/
def sigmaZZ : Mat4 := !![1,0,0,0; 0,-1,0,0; 0,0,-1,0; 0,0,0,1]

/-- `H ⊗ H`, which conjugates `Z ⊗ Z` into `X ⊗ X`. -/
def matHH : Mat4 :=
  !![1/2,1/2,1/2,1/2; 1/2,-(1/2),1/2,-(1/2); 1/2,1/2,-(1/2),-(1/2); 1/2,-(1/2),-(1/2),1/2]

/-- `(SH) ⊗ (SH)`, which conjugates `Z ⊗ Z` into `Y ⊗ Y`. -/
def matKK : Mat4 :=
  !![1/2,1/2,1/2,1/2; I/2,-(I/2),I/2,-(I/2); I/2,I/2,-(I/2),-(I/2); -(1/2),1/2,1/2,-(1/2)]

/-- The inverse of `matKK`. -/
def matKKinv : Mat4 :=
  !![1/2,-(I/2),-(I/2),-(1/2); 1/2,I/2,-(I/2),1/2; 1/2,-(I/2),I/2,1/2; 1/2,I/2,I/2,-(1/2)]

/-- `matHH` as a unit of the matrix ring. -/
def unitHH : (Mat4)ˣ :=
  ⟨matHH, matHH,
    by
      ext i j
      fin_cases i <;> fin_cases j <;>
        simp [matHH, Matrix.mul_apply, Fin.sum_univ_four, Matrix.vecHead, Matrix.vecTail,
          Matrix.one_apply] <;> norm_num,
    by
      ext i j
      fin_cases i <;> fin_cases j <;>
        simp [matHH, Matrix.mul_apply, Fin.sum_univ_four, Matrix.vecHead, Matrix.vecTail,
          Matrix.one_apply] <;> norm_num⟩

/-- `matKK` as a unit of the matrix ring. -/
def unitKK : (Mat4)ˣ :=
  ⟨matKK, matKKinv,
    by
      ext i j
      fin_cases i <;> fin_cases j <;>
        simp [matKK, matKKinv, Matrix.mul_apply, Fin.sum_univ_four, Matrix.vecHead,
          Matrix.vecTail, Matrix.one_apply] <;>
        (try ring_nf) <;> (try simp [Complex.I_sq]) <;> (try norm_num) <;> try ring,
    by
      ext i j
      fin_cases i <;> fin_cases j <;>
        simp [matKK, matKKinv, Matrix.mul_apply, Fin.sum_univ_four, Matrix.vecHead,
          Matrix.vecTail, Matrix.one_apply] <;>
        (try ring_nf) <;> (try simp [Complex.I_sq]) <;> (try norm_num) <;> try ring⟩

/-- Closed form of `exp(i t (X⊗X))`. -/
def matEXX (t : ℝ) : Mat4 :=
  !![(Real.cos t : ℂ), 0, 0, (Real.sin t : ℂ) * I;
     0, (Real.cos t : ℂ), (Real.sin t : ℂ) * I, 0;
     0, (Real.sin t : ℂ) * I, (Real.cos t : ℂ), 0;
     (Real.sin t : ℂ) * I, 0, 0, (Real.cos t : ℂ)]

/-- Closed form of `exp(i t (Y⊗Y))`. -/
def matEYY (t : ℝ) : Mat4 :=
  !![(Real.cos t : ℂ), 0, 0, -((Real.sin t : ℂ) * I);
     0, (Real.cos t : ℂ), (Real.sin t : ℂ) * I, 0;
     0, (Real.sin t : ℂ) * I, (Real.cos t : ℂ), 0;
     -((Real.sin t : ℂ) * I), 0, 0, (Real.cos t : ℂ)]

/-- The canonical non-local block `exp(i (k0 XX + k1 YY + k2 ZZ))` of the KAK
decomposition, defined through the genuine matrix exponential. -/
def kakNonlocal (k0 k1 k2 : ℝ) : Mat4 :=
  NormedSpace.exp ℂ (((k0:ℂ) * I) • sigmaXX + ((k1:ℂ) * I) • sigmaYY + ((k2:ℂ) * I) • sigmaZZ)

/-- Closed form of the canonical non-local block. -/
def kakBlock (k0 k1 k2 : ℝ) : Mat4 :=
  !![(Real.cos (k0-k1) : ℂ) * Complex.exp ((k2:ℂ)*I), 0, 0,
       (Real.sin (k0-k1) : ℂ) * I * Complex.exp ((k2:ℂ)*I);
     0, (Real.cos (k0+k1) : ℂ) * Complex.exp (-((k2:ℂ)*I)),
       (Real.sin (k0+k1) : ℂ) * I * Complex.exp (-((k2:ℂ)*I)), 0;
     0, (Real.sin (k0+k1) : ℂ) * I * Complex.exp (-((k2:ℂ)*I)),
       (Real.cos (k0+k1) : ℂ) * Complex.exp (-((k2:ℂ)*I)), 0;
     (Real.sin (k0-k1) : ℂ) * I * Complex.exp ((k2:ℂ)*I), 0, 0,
       (Real.cos (k0-k1) : ℂ) * Complex.exp ((k2:ℂ)*I)]

/-! ### Circuit unitaries -/

/-- Kronecker product of two single-qubit matrices, the first factor acting on
the most significant (control) wire. -/
def tensorM (A B : Mat2) : Mat4 :=
  !![A 0 0 * B 0 0, A 0 0 * B 0 1, A 0 1 * B 0 0, A 0 1 * B 0 1;
     A 0 0 * B 1 0, A 0 0 * B 1 1, A 0 1 * B 1 0, A 0 1 * B 1 1;
     A 1 0 * B 0 0, A 1 0 * B 0 1, A 1 1 * B 0 0, A 1 1 * B 0 1;
     A 1 0 * B 1 0, A 1 0 * B 1 1, A 1 1 * B 1 0, A 1 1 * B 1 1]

/-- Modelled from the spec: the consumed single-qubit gate `RotateX(qubit, θ)`,
with the standard matrix `exp(-i θ σx / 2)`. -/
def RotateXMat (t : ℝ) : Mat2 :=
  !![(Real.cos (t/2) : ℂ), -((Real.sin (t/2) : ℂ) * I);
     -((Real.sin (t/2) : ℂ) * I), (Real.cos (t/2) : ℂ)]

/-- Modelled from the spec: the consumed single-qubit gate `RotateY(qubit, θ)`,
with the standard matrix `exp(-i θ σy / 2)`. -/
def RotateYMat (t : ℝ) : Mat2 :=
  !![(Real.cos (t/2) : ℂ), -(Real.sin (t/2) : ℂ);
     (Real.sin (t/2) : ℂ), (Real.cos (t/2) : ℂ)]

/-- Modelled from the spec: the consumed single-qubit gate `RotateZ(qubit, θ)`,
with the standard matrix `exp(-i θ σz / 2) = diag(e^{-iθ/2}, e^{iθ/2})`. -/
def RotateZMat (t : ℝ) : Mat2 :=
  !![Complex.exp (-(((t/2 : ℝ) : ℂ) * I)), 0; 0, Complex.exp (((t/2 : ℝ) : ℂ) * I)]

/-- Modelled from the spec: the consumed single-qubit gate `Hadamard(qubit)`. -/
def HadamardMat : Mat2 :=
  !![(1/Real.sqrt 2 : ℂ), (1/Real.sqrt 2 : ℂ); (1/Real.sqrt 2 : ℂ), -(1/Real.sqrt 2 : ℂ)]

/-- Modelled from the spec: the consumed single-qubit gate `TGate(qubit)`. -/
def TGateMat : Mat2 := !![1, 0; 0, Complex.exp (((π/4 : ℝ) : ℂ) * I)]

/-- Modelled from the spec: the consumed single-qubit gate `PhaseShiftState1(qubit, θ)`,
`diag(1, e^{iθ})`. -/
def PhaseShiftState1Mat (t : ℝ) : Mat2 := !![1, 0; 0, Complex.exp ((t : ℂ) * I)]

/-- The 4×4 unitary of one circuit operation on the two wires `c` (most
significant) and `t` (least significant); an operation touching neither wire
acts as the identity. -/
def opUnitary (c t : ℕ) : Operation → Mat4
  | .RotateX q a => if q = c then tensorM (RotateXMat a) 1 else
      if q = t then tensorM 1 (RotateXMat a) else 1
  | .RotateY q a => if q = c then tensorM (RotateYMat a) 1 else
      if q = t then tensorM 1 (RotateYMat a) else 1
  | .RotateZ q a => if q = c then tensorM (RotateZMat a) 1 else
      if q = t then tensorM 1 (RotateZMat a) else 1
  | .Hadamard q => if q = c then tensorM HadamardMat 1 else
      if q = t then tensorM 1 HadamardMat else 1
  | .TGate q => if q = c then tensorM TGateMat 1 else
      if q = t then tensorM 1 TGateMat else 1
  | .PhaseShiftState1 q a => if q = c then tensorM (PhaseShiftState1Mat a) 1 else
      if q = t then tensorM 1 (PhaseShiftState1Mat a) else 1
  | .CNOTGate q0 q1 =>
      if q0 = c ∧ q1 = t then !![1,0,0,0; 0,1,0,0; 0,0,0,1; 0,0,1,0] else
      if q0 = t ∧ q1 = c then !![1,0,0,0; 0,0,0,1; 0,0,1,0; 0,1,0,0] else 1

/-- Unitary of a circuit on wires `c` and `t`: operations are applied in list
order, so the matrix of a later operation multiplies from the left. -/
def circuitUnitary (c t : ℕ) (ops : Circuit) : Mat4 :=
  ops.foldl (fun acc op => opUnitary c t op * acc) 1

/-- The 4×4 matrix reconstructed from a `KakDecomposition` on wires `c`, `t`:
`exp(i·global_phase) · U(circuit_after) · exp(i(k₀XX + k₁YY + k₂ZZ)) · U(circuit_before)`,
with an absent circuit counting as the identity. -/
def reconstructed (c t : ℕ) (kd : KakDecomposition) : Mat4 :=
  Complex.exp ((kd.global_phase : ℂ) * I) •
    (circuitUnitary c t (kd.circuit_after.getD []) *
      kakNonlocal (kd.k_vector 0) (kd.k_vector 1) (kd.k_vector 2) *
      circuitUnitary c t (kd.circuit_before.getD []))

/-! ### The sum type of the two-qubit gate operations

The Rust enum dispatch (the `TwoQubitGateOperation` enum of roqoqo and its
derive-generated impls) is embedded as an inductive with one constructor per
gate struct of the source file, with field-dispatching functions. -/

inductive TwoQubitGateOperation
  | cnot (g : CNOT)
  | swap (g : SWAP)
  | iswap (g : ISwap)
  | fswap (g : FSwap)
  | sqrtISwap (g : SqrtISwap)
  | invSqrtISwap (g : InvSqrtISwap)
  | xy (g : XY)
  | controlledPhaseShift (g : ControlledPhaseShift)
  | controlledPauliY (g : ControlledPauliY)
  | controlledPauliZ (g : ControlledPauliZ)
  | molmerSorensenXX (g : MolmerSorensenXX)
  | variableMSXX (g : VariableMSXX)
  | givensRotation (g : GivensRotation)
  | givensRotationLittleEndian (g : GivensRotationLittleEndian)
  | qsim (g : Qsim)
  | fsim (g : Fsim)
  | spinInteraction (g : SpinInteraction)
  | bogoliubov (g : Bogoliubov)
  | pmInteraction (g : PMInteraction)
  | complexPMInteraction (g : ComplexPMInteraction)
  | phaseShiftedControlledZ (g : PhaseShiftedControlledZ)

/-- The `control` qubit of a two-qubit gate (field `control` of every struct). -/
def TwoQubitGateOperation.control : TwoQubitGateOperation → ℕ
  | .cnot g => g.control
  | .swap g => g.control
  | .iswap g => g.control
  | .fswap g => g.control
  | .sqrtISwap g => g.control
  | .invSqrtISwap g => g.control
  | .xy g => g.control
  | .controlledPhaseShift g => g.control
  | .controlledPauliY g => g.control
  | .controlledPauliZ g => g.control
  | .molmerSorensenXX g => g.control
  | .variableMSXX g => g.control
  | .givensRotation g => g.control
  | .givensRotationLittleEndian g => g.control
  | .qsim g => g.control
  | .fsim g => g.control
  | .spinInteraction g => g.control
  | .bogoliubov g => g.control
  | .pmInteraction g => g.control
  | .complexPMInteraction g => g.control
  | .phaseShiftedControlledZ g => g.control

/-- The `target` qubit of a two-qubit gate (field `target` of every struct). -/
def TwoQubitGateOperation.target : TwoQubitGateOperation → ℕ
  | .cnot g => g.target
  | .swap g => g.target
  | .iswap g => g.target
  | .fswap g => g.target
  | .sqrtISwap g => g.target
  | .invSqrtISwap g => g.target
  | .xy g => g.target
  | .controlledPhaseShift g => g.target
  | .controlledPauliY g => g.target
  | .controlledPauliZ g => g.target
  | .molmerSorensenXX g => g.target
  | .variableMSXX g => g.target
  | .givensRotation g => g.target
  | .givensRotationLittleEndian g => g.target
  | .qsim g => g.target
  | .fsim g => g.target
  | .spinInteraction g => g.target
  | .bogoliubov g => g.target
  | .pmInteraction g => g.target
  | .complexPMInteraction g => g.target
  | .phaseShiftedControlledZ g => g.target

/-- The same gate kind with the same parameters on a new control/target pair;
this is the building block of `remap_qubits` for two-qubit gates. -/
def TwoQubitGateOperation.withQubits : TwoQubitGateOperation → ℕ → ℕ → TwoQubitGateOperation
  | .cnot _, c, t => .cnot ⟨c, t⟩
  | .swap _, c, t => .swap ⟨c, t⟩
  | .iswap _, c, t => .iswap ⟨c, t⟩
  | .fswap _, c, t => .fswap ⟨c, t⟩
  | .sqrtISwap _, c, t => .sqrtISwap ⟨c, t⟩
  | .invSqrtISwap _, c, t => .invSqrtISwap ⟨c, t⟩
  | .xy g, c, t => .xy ⟨c, t, g.theta⟩
  | .controlledPhaseShift g, c, t => .controlledPhaseShift ⟨c, t, g.theta⟩
  | .controlledPauliY _, c, t => .controlledPauliY ⟨c, t⟩
  | .controlledPauliZ _, c, t => .controlledPauliZ ⟨c, t⟩
  | .molmerSorensenXX _, c, t => .molmerSorensenXX ⟨c, t⟩
  | .variableMSXX g, c, t => .variableMSXX ⟨c, t, g.theta⟩
  | .givensRotation g, c, t => .givensRotation ⟨c, t, g.theta, g.phi⟩
  | .givensRotationLittleEndian g, c, t => .givensRotationLittleEndian ⟨c, t, g.theta, g.phi⟩
  | .qsim g, c, t => .qsim ⟨c, t, g.x, g.y, g.z⟩
  | .fsim g, c, t => .fsim ⟨c, t, g.t, g.u, g.delta⟩
  | .spinInteraction g, c, t => .spinInteraction ⟨c, t, g.x, g.y, g.z⟩
  | .bogoliubov g, c, t => .bogoliubov ⟨c, t, g.delta_real, g.delta_imag⟩
  | .pmInteraction g, c, t => .pmInteraction ⟨c, t, g.t⟩
  | .complexPMInteraction g, c, t => .complexPMInteraction ⟨c, t, g.t_real, g.t_imag⟩
  | .phaseShiftedControlledZ g, c, t => .phaseShiftedControlledZ ⟨c, t, g.phi⟩

/-- Dispatch of `unitary_matrix` over the gate kinds. -/
def TwoQubitGateOperation.unitary_matrix : TwoQubitGateOperation → Mat4
  | .cnot g => g.unitary_matrix
  | .swap g => g.unitary_matrix
  | .iswap g => g.unitary_matrix
  | .fswap g => g.unitary_matrix
  | .sqrtISwap g => g.unitary_matrix
  | .invSqrtISwap g => g.unitary_matrix
  | .xy g => g.unitary_matrix
  | .controlledPhaseShift g => g.unitary_matrix
  | .controlledPauliY g => g.unitary_matrix
  | .controlledPauliZ g => g.unitary_matrix
  | .molmerSorensenXX g => g.unitary_matrix
  | .variableMSXX g => g.unitary_matrix
  | .givensRotation g => g.unitary_matrix
  | .givensRotationLittleEndian g => g.unitary_matrix
  | .qsim g => g.unitary_matrix
  | .fsim g => g.unitary_matrix
  | .spinInteraction g => g.unitary_matrix
  | .bogoliubov g => g.unitary_matrix
  | .pmInteraction g => g.unitary_matrix
  | .complexPMInteraction g => g.unitary_matrix
  | .phaseShiftedControlledZ g => g.unitary_matrix

/-- Dispatch of `kak_decomposition` over the gate kinds. -/
def TwoQubitGateOperation.kak_decomposition : TwoQubitGateOperation → KakDecomposition
  | .cnot g => g.kak_decomposition
  | .swap g => g.kak_decomposition
  | .iswap g => g.kak_decomposition
  | .fswap g => g.kak_decomposition
  | .sqrtISwap g => g.kak_decomposition
  | .invSqrtISwap g => g.kak_decomposition
  | .xy g => g.kak_decomposition
  | .controlledPhaseShift g => g.kak_decomposition
  | .controlledPauliY g => g.kak_decomposition
  | .controlledPauliZ g => g.kak_decomposition
  | .molmerSorensenXX g => g.kak_decomposition
  | .variableMSXX g => g.kak_decomposition
  | .givensRotation g => g.kak_decomposition
  | .givensRotationLittleEndian g => g.kak_decomposition
  | .qsim g => g.kak_decomposition
  | .fsim g => g.kak_decomposition
  | .spinInteraction g => g.kak_decomposition
  | .bogoliubov g => g.kak_decomposition
  | .pmInteraction g => g.kak_decomposition
  | .complexPMInteraction g => g.kak_decomposition
  | .phaseShiftedControlledZ g => g.kak_decomposition

/-- Dispatch of `tags` over the gate kinds (the `TAGS_...` arrays of the source). -/
def TwoQubitGateOperation.tags : TwoQubitGateOperation → List String
  | .cnot _ => TAGS_CNOT
  | .swap _ => TAGS_SWAP
  | .iswap _ => TAGS_ISwap
  | .fswap _ => TAGS_FSwap
  | .sqrtISwap _ => TAGS_SqrtISwap
  | .invSqrtISwap _ => TAGS_InvSqrtISwap
  | .xy _ => TAGS_XY
  | .controlledPhaseShift _ => TAGS_ControlledPhaseShift
  | .controlledPauliY _ => TAGS_ControlledPauliY
  | .controlledPauliZ _ => TAGS_ControlledPauliZ
  | .molmerSorensenXX _ => TAGS_MolmerSorensenXX
  | .variableMSXX _ => TAGS_VariableMSXX
  | .givensRotation _ => TAGS_GivensRotation
  | .givensRotationLittleEndian _ => TAGS_GivensRotationLittleEndian
  | .qsim _ => TAGS_Qsim
  | .fsim _ => TAGS_Fsim
  | .spinInteraction _ => TAGS_SpinInteraction
  | .bogoliubov _ => TAGS_Bogoliubov
  | .pmInteraction _ => TAGS_PMInteraction
  | .complexPMInteraction _ => TAGS_ComplexPMInteraction
  | .phaseShiftedControlledZ _ => TAGS_PhaseShiftedControlledZ

/-- Modelled from the spec: `hqslang` is the canonical name of the gate kind
(generated by a derive macro in the source; the tests pin it to the struct
name). -/
def TwoQubitGateOperation.hqslang : TwoQubitGateOperation → String
  | .cnot _ => "CNOT"
  | .swap _ => "SWAP"
  | .iswap _ => "ISwap"
  | .fswap _ => "FSwap"
  | .sqrtISwap _ => "SqrtISwap"
  | .invSqrtISwap _ => "InvSqrtISwap"
  | .xy _ => "XY"
  | .controlledPhaseShift _ => "ControlledPhaseShift"
  | .controlledPauliY _ => "ControlledPauliY"
  | .controlledPauliZ _ => "ControlledPauliZ"
  | .molmerSorensenXX _ => "MolmerSorensenXX"
  | .variableMSXX _ => "VariableMSXX"
  | .givensRotation _ => "GivensRotation"
  | .givensRotationLittleEndian _ => "GivensRotationLittleEndian"
  | .qsim _ => "Qsim"
  | .fsim _ => "Fsim"
  | .spinInteraction _ => "SpinInteraction"
  | .bogoliubov _ => "Bogoliubov"
  | .pmInteraction _ => "PMInteraction"
  | .complexPMInteraction _ => "ComplexPMInteraction"
  | .phaseShiftedControlledZ _ => "PhaseShiftedControlledZ"

/-- Whether the gate kind derives `Rotate` in the source, i.e. whether its
`TAGS_...` array carries the `"Rotation"` tag. -/
def TwoQubitGateOperation.isRotation : TwoQubitGateOperation → Bool
  | .xy _ => true
  | .controlledPhaseShift _ => true
  | .variableMSXX _ => true
  | .givensRotation _ => true
  | .givensRotationLittleEndian _ => true
  | _ => false

/-! ### Multi-qubit gate behaviour (spec-modelled: the multi-qubit gate
implementation file is not part of the sources, only its integration test). -/

/-- Modelled from the spec: `MultiCNOT.circuit()` is a single `CNOT` for a
2-qubit list, the Toffoli-style template of the test for a 3-qubit list. -/
def MultiCNOT.circuit (g : MultiCNOT) : Circuit :=
  match g.qubits with
  | [a, b] => [.CNOTGate a b]
  | [a, b, c] =>
      [.Hadamard c, .CNOTGate b c, .PhaseShiftState1 c (-(π/4)), .CNOTGate a c,
       .TGate c, .CNOTGate b c, .PhaseShiftState1 c (-(π/4)), .CNOTGate a c,
       .TGate b, .TGate c, .Hadamard c, .CNOTGate a b, .TGate a,
       .PhaseShiftState1 b (-(π/4)), .CNOTGate a b]
  | _ => []

/-- Modelled from the spec: the `MultiQubitMS` unitary `exp(−iθ·X⊗…⊗X/2)`,
`cos(θ/2)` on the diagonal and `−i·sin(θ/2)` on the anti-diagonal. -/
def multiMSUnitary (n : ℕ) (x : ℝ) : Matrix (Fin (2^n)) (Fin (2^n)) ℂ :=
  fun i j => (if (i : ℕ) = (j : ℕ) then (Real.cos (x/2) : ℂ) else 0) +
    (if (i : ℕ) + (j : ℕ) = 2^n - 1 then -((Real.sin (x/2) : ℂ) * I) else 0)

/-- Modelled from the spec: the `MultiQubitZZ` unitary `exp(−iθ·Z⊗…⊗Z/2)`,
diagonal with `e^{∓iθ/2}` according to the parity of the basis index. -/
def multiZZUnitary (n : ℕ) (x : ℝ) : Matrix (Fin (2^n)) (Fin (2^n)) ℂ :=
  Matrix.diagonal (fun i =>
    if (Nat.digits 2 (i : ℕ)).sum % 2 = 0
    then Complex.exp (-(((x/2 : ℝ) : ℂ) * I))
    else Complex.exp (((x/2 : ℝ) : ℂ) * I))

/-- Modelled from the spec: the `MultiCNOT` unitary is the identity on the
first `2^n − 2` basis states and swaps the last two. -/
def multiCNOTUnitary (n : ℕ) : Matrix (Fin (2^n)) (Fin (2^n)) ℂ :=
  fun i j =>
    if (i : ℕ) < 2^n - 2 ∨ (j : ℕ) < 2^n - 2 then (if (i : ℕ) = (j : ℕ) then 1 else 0)
    else (if (i : ℕ) = (j : ℕ) then 0 else 1)

/-- Modelled from the spec: `unitary_matrix` of `MultiQubitMS` fails iff the
angle is symbolic; a concrete angle gives the closed form. -/
def MultiQubitMS.unitary_matrix (g : MultiQubitMS) :
    Option (Matrix (Fin (2^g.qubits.length)) (Fin (2^g.qubits.length)) ℂ) :=
  match g.theta with
  | .Float x => some (multiMSUnitary g.qubits.length x)
  | .Symbolic _ => none

/-- Modelled from the spec: `unitary_matrix` of `MultiQubitZZ`. -/
def MultiQubitZZ.unitary_matrix (g : MultiQubitZZ) :
    Option (Matrix (Fin (2^g.qubits.length)) (Fin (2^g.qubits.length)) ℂ) :=
  match g.theta with
  | .Float x => some (multiZZUnitary g.qubits.length x)
  | .Symbolic _ => none

/-- Modelled from the spec: `unitary_matrix` of `MultiCNOT` (parameter-free,
never fails). -/
def MultiCNOT.unitary_matrix (g : MultiCNOT) :
    Matrix (Fin (2^g.qubits.length)) (Fin (2^g.qubits.length)) ℂ :=
  multiCNOTUnitary g.qubits.length

/-- Modelled from the spec: `powercf` of the multi-qubit Mølmer–Sørensen
rotation replaces the angle by `power · theta` (the test builds the expected
gate exactly this way). -/
def MultiQubitMS.powercf (g : MultiQubitMS) (k : CalculatorFloat) : MultiQubitMS :=
  ⟨g.qubits, k.mul g.theta⟩

/-- Modelled from the spec: `powercf` of `MultiQubitZZ`. -/
def MultiQubitZZ.powercf (g : MultiQubitZZ) (k : CalculatorFloat) : MultiQubitZZ :=
  ⟨g.qubits, k.mul g.theta⟩

/-- Modelled from the spec: `powercf` of the two-qubit rotation gate `XY`
(derive-generated in the source) returns the same gate with the angle replaced
by `power · theta`; the two-qubit embedding carries the angle as an exact real
(a concrete parameter). -/
def XY.powercf (g : XY) (k : ℝ) : XY :=
  ⟨g.control, g.target, k * g.theta⟩

/-- Modelled from the spec: `powercf` of `ControlledPhaseShift`. -/
def ControlledPhaseShift.powercf (g : ControlledPhaseShift) (k : ℝ) : ControlledPhaseShift :=
  ⟨g.control, g.target, k * g.theta⟩

/-- Modelled from the spec: `powercf` of `VariableMSXX`. -/
def VariableMSXX.powercf (g : VariableMSXX) (k : ℝ) : VariableMSXX :=
  ⟨g.control, g.target, k * g.theta⟩

/-- Modelled from the spec: `powercf` of `GivensRotation` scales the rotation
angle `theta` and leaves the phase `phi` untouched. -/
def GivensRotation.powercf (g : GivensRotation) (k : ℝ) : GivensRotation :=
  ⟨g.control, g.target, k * g.theta, g.phi⟩

/-- Modelled from the spec: `powercf` of `GivensRotationLittleEndian`. -/
def GivensRotationLittleEndian.powercf (g : GivensRotationLittleEndian) (k : ℝ) :
    GivensRotationLittleEndian :=
  ⟨g.control, g.target, k * g.theta, g.phi⟩

/-! ### The union of all gate operations, with the qubit-level capability
surface (`involved_qubits`, `remap_qubits`, `tags`, `hqslang`). -/

inductive GateOperation
  | twoQubit (g : TwoQubitGateOperation)
  | multiMS (g : MultiQubitMS)
  | multiZZ (g : MultiQubitZZ)
  | multiCNOT (g : MultiCNOT)

/-- Modelled from the spec: `involved_qubits` is `{control, target}` for a
two-qubit gate and the qubit list's elements for a multi-qubit gate (kept
here in list form; the order is the struct order). -/
def GateOperation.involved_qubits : GateOperation → List ℕ
  | .twoQubit g => [g.control, g.target]
  | .multiMS g => g.qubits
  | .multiZZ g => g.qubits
  | .multiCNOT g => g.qubits

/-- Dispatch of `tags` over all gate kinds. -/
def GateOperation.tags : GateOperation → List String
  | .twoQubit g => g.tags
  | .multiMS _ => TAGS_MultiQubitMS
  | .multiZZ _ => TAGS_MultiQubitZZ
  | .multiCNOT _ => TAGS_MultiCNOT

/-- Dispatch of `hqslang` over all gate kinds. -/
def GateOperation.hqslang : GateOperation → String
  | .twoQubit g => g.hqslang
  | .multiMS _ => "MultiQubitMS"
  | .multiZZ _ => "MultiQubitZZ"
  | .multiCNOT _ => "MultiCNOT"

/-- Whether the gate is one of the multi-qubit kinds. -/
def GateOperation.isMultiQubit : GateOperation → Bool
  | .twoQubit _ => false
  | _ => true

/-- Whether the gate is a rotation-carrying two-qubit gate. -/
def GateOperation.isTwoQubitRotation : GateOperation → Bool
  | .twoQubit g => g.isRotation
  | _ => false

/-- Image of a qubit list under a (partial) qubit map: `some` of the mapped
list when every qubit is a key, `none` otherwise.  This models the all-or-
nothing `HashMap` lookup of `remap_qubits`. -/
def remapAll (M : ℕ → Option ℕ) : List ℕ → Option (List ℕ)
  | [] => some []
  | q :: qs =>
    match M q, remapAll M qs with
    | some r, some rs => some (r :: rs)
    | _, _ => none

/-- Modelled from the spec: `remap_qubits` of a two-qubit gate requires both
`control` and `target` to be keys of the map and rebuilds the gate on their
images. -/
def TwoQubitGateOperation.remap_qubits (g : TwoQubitGateOperation) (M : ℕ → Option ℕ) :
    Option TwoQubitGateOperation :=
  match M g.control, M g.target with
  | some c, some t => some (g.withQubits c t)
  | _, _ => none

/-- Modelled from the spec: `remap_qubits` of a multi-qubit gate maps the whole
qubit list, failing if any entry is absent from the map. -/
def MultiQubitMS.remap_qubits (g : MultiQubitMS) (M : ℕ → Option ℕ) :
    Option MultiQubitMS :=
  (remapAll M g.qubits).map (fun qs => ⟨qs, g.theta⟩)

/-- Modelled from the spec: `remap_qubits` of `MultiQubitZZ`. -/
def MultiQubitZZ.remap_qubits (g : MultiQubitZZ) (M : ℕ → Option ℕ) :
    Option MultiQubitZZ :=
  (remapAll M g.qubits).map (fun qs => ⟨qs, g.theta⟩)

/-- Modelled from the spec: `remap_qubits` of `MultiCNOT`. -/
def MultiCNOT.remap_qubits (g : MultiCNOT) (M : ℕ → Option ℕ) :
    Option MultiCNOT :=
  (remapAll M g.qubits).map (fun qs => ⟨qs⟩)

/-- Dispatch of `remap_qubits` over all gate kinds. -/
def GateOperation.remap_qubits (G : GateOperation) (M : ℕ → Option ℕ) :
    Option GateOperation :=
  match G with
  | .twoQubit g => (g.remap_qubits M).map .twoQubit
  | .multiMS g => (g.remap_qubits M).map .multiMS
  | .multiZZ g => (g.remap_qubits M).map .multiZZ
  | .multiCNOT g => (g.remap_qubits M).map .multiCNOT

/-- The row permutation exchanging the middle two rows of a 4×4 matrix. -/
def swap12 : Fin 4 → Fin 4 := ![0, 2, 1, 3]

/-! ### Matrix computation infrastructure -/

/-- Entrywise criterion for equality of two explicit 4×4 matrices. -/
theorem eq4_of {a00 a01 a02 a03 a10 a11 a12 a13 a20 a21 a22 a23 a30 a31 a32 a33
    b00 b01 b02 b03 b10 b11 b12 b13 b20 b21 b22 b23 b30 b31 b32 b33 : ℂ}
    (h00 : a00 = b00) (h01 : a01 = b01) (h02 : a02 = b02) (h03 : a03 = b03)
    (h10 : a10 = b10) (h11 : a11 = b11) (h12 : a12 = b12) (h13 : a13 = b13)
    (h20 : a20 = b20) (h21 : a21 = b21) (h22 : a22 = b22) (h23 : a23 = b23)
    (h30 : a30 = b30) (h31 : a31 = b31) (h32 : a32 = b32) (h33 : a33 = b33) :
    (!![a00,a01,a02,a03; a10,a11,a12,a13; a20,a21,a22,a23; a30,a31,a32,a33] : Mat4) =
      !![b00,b01,b02,b03; b10,b11,b12,b13; b20,b21,b22,b23; b30,b31,b32,b33] := by
  subst h00 h01 h02 h03 h10 h11 h12 h13 h20 h21 h22 h23 h30 h31 h32 h33
  rfl

/-- Product of two explicit 4×4 matrices. -/
theorem mul4 (a00 a01 a02 a03 a10 a11 a12 a13 a20 a21 a22 a23 a30 a31 a32 a33
    b00 b01 b02 b03 b10 b11 b12 b13 b20 b21 b22 b23 b30 b31 b32 b33 : ℂ) :
    (!![a00,a01,a02,a03; a10,a11,a12,a13; a20,a21,a22,a23; a30,a31,a32,a33] : Mat4) *
      !![b00,b01,b02,b03; b10,b11,b12,b13; b20,b21,b22,b23; b30,b31,b32,b33] =
    !![a00*b00 + a01*b10 + a02*b20 + a03*b30, a00*b01 + a01*b11 + a02*b21 + a03*b31,
         a00*b02 + a01*b12 + a02*b22 + a03*b32, a00*b03 + a01*b13 + a02*b23 + a03*b33;
       a10*b00 + a11*b10 + a12*b20 + a13*b30, a10*b01 + a11*b11 + a12*b21 + a13*b31,
         a10*b02 + a11*b12 + a12*b22 + a13*b32, a10*b03 + a11*b13 + a12*b23 + a13*b33;
       a20*b00 + a21*b10 + a22*b20 + a23*b30, a20*b01 + a21*b11 + a22*b21 + a23*b31,
         a20*b02 + a21*b12 + a22*b22 + a23*b32, a20*b03 + a21*b13 + a22*b23 + a23*b33;
       a30*b00 + a31*b10 + a32*b20 + a33*b30, a30*b01 + a31*b11 + a32*b21 + a33*b31,
         a30*b02 + a31*b12 + a32*b22 + a33*b32, a30*b03 + a31*b13 + a32*b23 + a33*b33] := by
  ext i j
  fin_cases i <;> fin_cases j <;>
    simp [Matrix.mul_apply, Fin.sum_univ_four, Matrix.vecHead, Matrix.vecTail]

/-- Scalar multiple of an explicit 4×4 matrix. -/
theorem smul4 (s : ℂ) (a00 a01 a02 a03 a10 a11 a12 a13 a20 a21 a22 a23 a30 a31 a32 a33 : ℂ) :
    s • (!![a00,a01,a02,a03; a10,a11,a12,a13; a20,a21,a22,a23; a30,a31,a32,a33] : Mat4) =
    !![s*a00, s*a01, s*a02, s*a03; s*a10, s*a11, s*a12, s*a13;
       s*a20, s*a21, s*a22, s*a23; s*a30, s*a31, s*a32, s*a33] := by
  ext i j
  fin_cases i <;> fin_cases j <;>
    simp [Matrix.smul_apply, Matrix.mul_apply, Fin.sum_univ_four, Matrix.vecHead, Matrix.vecTail]

/-- The 4×4 identity as an explicit matrix. -/
theorem one4 : (1 : Mat4) = !![1,0,0,0; 0,1,0,0; 0,0,1,0; 0,0,0,1] := by
  ext i j
  fin_cases i <;> fin_cases j <;> simp [Matrix.one_apply, Matrix.vecHead, Matrix.vecTail]

/-- A diagonal 4×4 matrix as an explicit matrix. -/
theorem diag4 (a b c d : ℂ) :
    (Matrix.diagonal ![a,b,c,d] : Mat4) = !![a,0,0,0; 0,b,0,0; 0,0,c,0; 0,0,0,d] := by
  ext i j
  fin_cases i <;> fin_cases j <;> simp [Matrix.diagonal_apply, Matrix.vecHead, Matrix.vecTail]

/-- The 2×2 identity as an explicit matrix. -/
theorem one2 : (1 : Mat2) = !![1,0;0,1] := by
  ext i j
  fin_cases i <;> fin_cases j <;> simp [Matrix.one_apply]

/-- Product of two explicit 2×2 matrices. -/
theorem mul2 (a b c d e f g h : ℂ) :
    (!![a,b;c,d] : Mat2) * !![e,f;g,h] = !![a*e + b*g, a*f + b*h; c*e + d*g, c*f + d*h] := by
  ext i j
  fin_cases i <;> fin_cases j <;>
    simp [Matrix.mul_apply, Fin.sum_univ_two, Matrix.vecHead, Matrix.vecTail]

theorem I_pow_3 : (I:ℂ)^3 = -I := by
  rw [pow_succ, Complex.I_sq]; ring

theorem I_pow_5 : (I:ℂ)^5 = I := by
  have h : (I:ℂ)^5 = ((I:ℂ)^2)^2 * I := by ring
  rw [h, Complex.I_sq]; ring

theorem cexp_I_eq (t : ℝ) :
    Complex.exp ((t:ℂ)*I) = (Real.cos t : ℂ) + (Real.sin t : ℂ) * I := by
  rw [Complex.exp_mul_I]
  simp [Complex.ofReal_cos, Complex.ofReal_sin]

theorem cexp_negI_eq (t : ℝ) :
    Complex.exp (-((t:ℂ)*I)) = (Real.cos t : ℂ) - (Real.sin t : ℂ) * I := by
  have h : -((t:ℂ)*I) = ((-t : ℝ) : ℂ) * I := by push_cast; ring
  rw [h, cexp_I_eq]
  simp [Real.cos_neg, Real.sin_neg]
  ring

theorem sqrt2_sq : ((Real.sqrt 2 : ℝ) : ℂ)^2 = 2 := by
  have h : (Real.sqrt 2 : ℝ)^2 = 2 := Real.sq_sqrt (by norm_num)
  calc ((Real.sqrt 2 : ℝ) : ℂ)^2 = (((Real.sqrt 2 : ℝ)^2 : ℝ) : ℂ) := by push_cast; ring
  _ = 2 := by rw [h]; norm_num

theorem sqrt2_pow3 : ((Real.sqrt 2 : ℝ) : ℂ)^3 = 2 * ((Real.sqrt 2 : ℝ) : ℂ) := by
  rw [pow_succ, sqrt2_sq]

theorem sqrt2_pow4 : ((Real.sqrt 2 : ℝ) : ℂ)^4 = 4 := by
  have h : ((Real.sqrt 2 : ℝ) : ℂ)^4 = (((Real.sqrt 2 : ℝ) : ℂ)^2)^2 := by ring
  rw [h, sqrt2_sq]; norm_num

theorem sqrt2_pow5 : ((Real.sqrt 2 : ℝ) : ℂ)^5 = 4 * ((Real.sqrt 2 : ℝ) : ℂ) := by
  rw [pow_succ, sqrt2_pow4]

theorem sqrt2_pow6 : ((Real.sqrt 2 : ℝ) : ℂ)^6 = 8 := by
  have h : ((Real.sqrt 2 : ℝ) : ℂ)^6 = (((Real.sqrt 2 : ℝ) : ℂ)^2)^3 := by ring
  rw [h, sqrt2_sq]; norm_num

theorem sqrt2_pow7 : ((Real.sqrt 2 : ℝ) : ℂ)^7 = 8 * ((Real.sqrt 2 : ℝ) : ℂ) := by
  rw [pow_succ, sqrt2_pow6]

theorem commXY : Commute sigmaXX sigmaYY := by
  show sigmaXX * sigmaYY = sigmaYY * sigmaXX
  rw [sigmaXX, sigmaYY, mul4, mul4]
  refine eq4_of ?_ ?_ ?_ ?_ ?_ ?_ ?_ ?_ ?_ ?_ ?_ ?_ ?_ ?_ ?_ ?_ <;> ring

theorem commXZ : Commute sigmaXX sigmaZZ := by
  show sigmaXX * sigmaZZ = sigmaZZ * sigmaXX
  rw [sigmaXX, sigmaZZ, mul4, mul4]
  refine eq4_of ?_ ?_ ?_ ?_ ?_ ?_ ?_ ?_ ?_ ?_ ?_ ?_ ?_ ?_ ?_ ?_ <;> ring

theorem commYZ : Commute sigmaYY sigmaZZ := by
  show sigmaYY * sigmaZZ = sigmaZZ * sigmaYY
  rw [sigmaYY, sigmaZZ, mul4, mul4]
  refine eq4_of ?_ ?_ ?_ ?_ ?_ ?_ ?_ ?_ ?_ ?_ ?_ ?_ ?_ ?_ ?_ ?_ <;> ring

theorem matHH_mul_self : matHH * matHH = 1 := by
  rw [matHH, mul4, one4]
  refine eq4_of ?_ ?_ ?_ ?_ ?_ ?_ ?_ ?_ ?_ ?_ ?_ ?_ ?_ ?_ ?_ ?_ <;> norm_num

theorem matKK_mul_inv : matKK * matKKinv = 1 := by
  rw [matKK, matKKinv, mul4, one4]
  refine eq4_of ?_ ?_ ?_ ?_ ?_ ?_ ?_ ?_ ?_ ?_ ?_ ?_ ?_ ?_ ?_ ?_ <;>
    (try ring_nf) <;> simp [Complex.I_sq, I_pow_3] <;> try ring

theorem matKKinv_mul : matKKinv * matKK = 1 := by
  rw [matKK, matKKinv, mul4, one4]
  refine eq4_of ?_ ?_ ?_ ?_ ?_ ?_ ?_ ?_ ?_ ?_ ?_ ?_ ?_ ?_ ?_ ?_ <;>
    (try ring_nf) <;> simp [Complex.I_sq, I_pow_3] <;> try ring

theorem sigmaXX_conj : sigmaXX = matHH * sigmaZZ * matHH := by
  rw [matHH, sigmaZZ, mul4, mul4, sigmaXX]
  refine eq4_of ?_ ?_ ?_ ?_ ?_ ?_ ?_ ?_ ?_ ?_ ?_ ?_ ?_ ?_ ?_ ?_ <;> norm_num

theorem sigmaYY_conj : sigmaYY = matKK * sigmaZZ * matKKinv := by
  rw [matKK, matKKinv, sigmaZZ, mul4, mul4, sigmaYY]
  refine eq4_of ?_ ?_ ?_ ?_ ?_ ?_ ?_ ?_ ?_ ?_ ?_ ?_ ?_ ?_ ?_ ?_ <;>
    (try ring_nf) <;> simp [Complex.I_sq, I_pow_3] <;> try ring

theorem smul_sigmaZZ (t : ℝ) :
    ((t : ℂ) * I) • sigmaZZ = Matrix.diagonal ![(t:ℂ)*I, -((t:ℂ)*I), -((t:ℂ)*I), (t:ℂ)*I] := by
  rw [sigmaZZ, smul4, diag4]
  refine eq4_of ?_ ?_ ?_ ?_ ?_ ?_ ?_ ?_ ?_ ?_ ?_ ?_ ?_ ?_ ?_ ?_ <;> ring

theorem exp_smul_sigmaZZ (t : ℝ) :
    NormedSpace.exp ℂ (((t : ℂ) * I) • sigmaZZ) =
      !![Complex.exp ((t:ℂ)*I), 0, 0, 0;
         0, Complex.exp (-((t:ℂ)*I)), 0, 0;
         0, 0, Complex.exp (-((t:ℂ)*I)), 0;
         0, 0, 0, Complex.exp ((t:ℂ)*I)] := by
  rw [smul_sigmaZZ, Matrix.exp_diagonal, Pi.exp_def]
  have hv : (fun i => NormedSpace.exp ℂ (![(t:ℂ)*I, -((t:ℂ)*I), -((t:ℂ)*I), (t:ℂ)*I] i)) =
      ![Complex.exp ((t:ℂ)*I), Complex.exp (-((t:ℂ)*I)), Complex.exp (-((t:ℂ)*I)),
        Complex.exp ((t:ℂ)*I)] := by
    funext i
    fin_cases i <;> simp [Matrix.vecHead, Matrix.vecTail] <;> rw [← Complex.exp_eq_exp_ℂ]
  rw [hv, diag4]

theorem exp_smul_sigmaXX (t : ℝ) :
    NormedSpace.exp ℂ (((t : ℂ) * I) • sigmaXX) = matEXX t := by
  have h1 : ((t : ℂ) * I) • sigmaXX = (unitHH : Mat4) * (((t : ℂ) * I) • sigmaZZ) * ↑unitHH⁻¹ := by
    show ((t : ℂ) * I) • sigmaXX = matHH * (((t : ℂ) * I) • sigmaZZ) * matHH
    rw [Matrix.mul_smul, Matrix.smul_mul, ← sigmaXX_conj]
  rw [h1, Matrix.exp_units_conj, exp_smul_sigmaZZ]
  show matHH * _ * matHH = _
  rw [matHH, mul4, mul4, matEXX]
  refine eq4_of ?_ ?_ ?_ ?_ ?_ ?_ ?_ ?_ ?_ ?_ ?_ ?_ ?_ ?_ ?_ ?_ <;>
    simp only [cexp_I_eq, cexp_negI_eq] <;> ring

theorem exp_smul_sigmaYY (t : ℝ) :
    NormedSpace.exp ℂ (((t : ℂ) * I) • sigmaYY) = matEYY t := by
  have h1 : ((t : ℂ) * I) • sigmaYY = (unitKK : Mat4) * (((t : ℂ) * I) • sigmaZZ) * ↑unitKK⁻¹ := by
    show ((t : ℂ) * I) • sigmaYY = matKK * (((t : ℂ) * I) • sigmaZZ) * matKKinv
    rw [Matrix.mul_smul, Matrix.smul_mul, ← sigmaYY_conj]
  rw [h1, Matrix.exp_units_conj, exp_smul_sigmaZZ]
  show matKK * _ * matKKinv = _
  rw [matKK, matKKinv, mul4, mul4, matEYY]
  refine eq4_of ?_ ?_ ?_ ?_ ?_ ?_ ?_ ?_ ?_ ?_ ?_ ?_ ?_ ?_ ?_ ?_ <;>
    simp only [cexp_I_eq, cexp_negI_eq] <;> (try ring_nf) <;>
    (try simp [Complex.I_sq, I_pow_3]) <;> try ring

theorem kakNonlocal_closed (k0 k1 k2 : ℝ) : kakNonlocal k0 k1 k2 = kakBlock k0 k1 k2 := by
  have hxy : Commute (((k0:ℂ) * I) • sigmaXX) (((k1:ℂ) * I) • sigmaYY) :=
    (commXY.smul_left _).smul_right _
  have hxz : Commute (((k0:ℂ) * I) • sigmaXX) (((k2:ℂ) * I) • sigmaZZ) :=
    (commXZ.smul_left _).smul_right _
  have hyz : Commute (((k1:ℂ) * I) • sigmaYY) (((k2:ℂ) * I) • sigmaZZ) :=
    (commYZ.smul_left _).smul_right _
  rw [kakNonlocal, Matrix.exp_add_of_commute _ _ _ (hxz.add_left hyz),
    Matrix.exp_add_of_commute _ _ _ hxy, exp_smul_sigmaXX, exp_smul_sigmaYY, exp_smul_sigmaZZ,
    matEXX, matEYY, mul4, mul4, kakBlock]
  refine eq4_of ?_ ?_ ?_ ?_ ?_ ?_ ?_ ?_ ?_ ?_ ?_ ?_ ?_ ?_ ?_ ?_ <;>
    (try simp only [Real.cos_sub, Real.sin_sub, Real.cos_add, Real.sin_add]) <;>
    (try push_cast) <;> (try ring_nf) <;> (try simp [Complex.I_sq, I_pow_3]) <;> try ring

theorem tensor_lit (a b c d e f g h : ℂ) :
    tensorM !![a,b;c,d] !![e,f;g,h] =
      !![a*e, a*f, b*e, b*f; a*g, a*h, b*g, b*h;
         c*e, c*f, d*e, d*f; c*g, c*h, d*g, d*h] := rfl

/-! ### Per-gate KAK reconstruction lemmas -/

theorem kak_recon_SWAP (g : SWAP) (c t : ℕ) :
    reconstructed c t g.kak_decomposition = g.unitary_matrix := by
  have h1 : (π/4 - π/4 : ℝ) = 0 := by ring
  have h2 : (π/4 + π/4 : ℝ) = π/2 := by ring
  have h3 : ((-1) * π / 4 : ℝ) = -(π/4) := by ring
  simp only [reconstructed, SWAP.kak_decomposition, SWAP.unitary_matrix, Option.getD_none,
    circuitUnitary, List.foldl_nil, Matrix.one_mul, Matrix.mul_one, kakNonlocal_closed,
    Matrix.cons_val_zero, Matrix.cons_val_one, Matrix.head_cons, Matrix.cons_val_two,
    Matrix.cons_val_three, Matrix.cons_val_succ, Matrix.vecHead, Matrix.vecTail,
    Function.comp_apply]
  rw [kakBlock, smul4]
  simp only [h1, h2, h3, cexp_I_eq, cexp_negI_eq, Real.cos_neg, Real.sin_neg,
    Real.cos_pi_div_four, Real.sin_pi_div_four, Real.cos_pi_div_two, Real.sin_pi_div_two,
    Real.cos_zero, Real.sin_zero]
  refine eq4_of ?_ ?_ ?_ ?_ ?_ ?_ ?_ ?_ ?_ ?_ ?_ ?_ ?_ ?_ ?_ ?_ <;> push_cast <;>
    (try ring_nf) <;>
    (try simp only [Complex.I_sq, I_pow_3, I_pow_5, sqrt2_sq, sqrt2_pow3, sqrt2_pow4, sqrt2_pow5,
      sqrt2_pow6, sqrt2_pow7]) <;> (try norm_num) <;> (try ring_nf) <;> try norm_num

theorem kak_recon_ISwap (g : ISwap) (c t : ℕ) :
    reconstructed c t g.kak_decomposition = g.unitary_matrix := by
  have h1 : (π/4 - π/4 : ℝ) = 0 := by ring
  have h2 : (π/4 + π/4 : ℝ) = π/2 := by ring
  simp only [reconstructed, ISwap.kak_decomposition, ISwap.unitary_matrix, Option.getD_none,
    circuitUnitary, List.foldl_nil, Matrix.one_mul, Matrix.mul_one, kakNonlocal_closed,
    Matrix.cons_val_zero, Matrix.cons_val_one, Matrix.head_cons, Matrix.cons_val_two,
    Matrix.cons_val_three, Matrix.cons_val_succ, Matrix.vecHead, Matrix.vecTail,
    Function.comp_apply]
  rw [kakBlock, smul4]
  simp only [h1, h2, cexp_I_eq, cexp_negI_eq, Real.cos_pi_div_two, Real.sin_pi_div_two,
    Real.cos_zero, Real.sin_zero]
  refine eq4_of ?_ ?_ ?_ ?_ ?_ ?_ ?_ ?_ ?_ ?_ ?_ ?_ ?_ ?_ ?_ ?_ <;> push_cast <;>
    (try ring_nf) <;> (try norm_num) <;> try ring_nf

theorem kak_recon_SqrtISwap (g : SqrtISwap) (c t : ℕ) :
    reconstructed c t g.kak_decomposition = g.unitary_matrix := by
  have h1 : (π/8 - π/8 : ℝ) = 0 := by ring
  have h2 : (π/8 + π/8 : ℝ) = π/4 := by ring
  simp only [reconstructed, SqrtISwap.kak_decomposition, SqrtISwap.unitary_matrix,
    Option.getD_none, circuitUnitary, List.foldl_nil, Matrix.one_mul, Matrix.mul_one,
    kakNonlocal_closed, Matrix.cons_val_zero, Matrix.cons_val_one, Matrix.head_cons,
    Matrix.cons_val_two, Matrix.cons_val_three, Matrix.cons_val_succ, Matrix.vecHead,
    Matrix.vecTail, Function.comp_apply]
  rw [kakBlock, smul4]
  simp only [h1, h2, cexp_I_eq, cexp_negI_eq, Real.cos_pi_div_four, Real.sin_pi_div_four,
    Real.cos_zero, Real.sin_zero]
  have hs : ((Real.sqrt 2 : ℝ) : ℂ) ≠ 0 := by
    simp only [ne_eq, Complex.ofReal_eq_zero]
    positivity
  refine eq4_of ?_ ?_ ?_ ?_ ?_ ?_ ?_ ?_ ?_ ?_ ?_ ?_ ?_ ?_ ?_ ?_ <;> push_cast <;>
    (try norm_num) <;> (try field_simp) <;> (try ring_nf) <;>
    (try simp only [Complex.I_sq, I_pow_3, sqrt2_sq, sqrt2_pow3, sqrt2_pow4, sqrt2_pow5,
      sqrt2_pow6, sqrt2_pow7]) <;> (try norm_num) <;> try ring_nf

theorem kak_recon_InvSqrtISwap (g : InvSqrtISwap) (c t : ℕ) :
    reconstructed c t g.kak_decomposition = g.unitary_matrix := by
  have h1 : ((-1) * π / 8 - (-1) * π / 8 : ℝ) = 0 := by ring
  have h2 : ((-1) * π / 8 + (-1) * π / 8 : ℝ) = -(π/4) := by ring
  simp only [reconstructed, InvSqrtISwap.kak_decomposition, InvSqrtISwap.unitary_matrix,
    Option.getD_none, circuitUnitary, List.foldl_nil, Matrix.one_mul, Matrix.mul_one,
    kakNonlocal_closed, Matrix.cons_val_zero, Matrix.cons_val_one, Matrix.head_cons,
    Matrix.cons_val_two, Matrix.cons_val_three, Matrix.cons_val_succ, Matrix.vecHead,
    Matrix.vecTail, Function.comp_apply]
  rw [kakBlock, smul4]
  simp only [h1, h2, cexp_I_eq, cexp_negI_eq, Real.cos_neg, Real.sin_neg,
    Real.cos_pi_div_four, Real.sin_pi_div_four, Real.cos_zero, Real.sin_zero]
  have hs : ((Real.sqrt 2 : ℝ) : ℂ) ≠ 0 := by
    simp only [ne_eq, Complex.ofReal_eq_zero]
    positivity
  refine eq4_of ?_ ?_ ?_ ?_ ?_ ?_ ?_ ?_ ?_ ?_ ?_ ?_ ?_ ?_ ?_ ?_ <;> push_cast <;>
    (try norm_num) <;> (try field_simp) <;> (try ring_nf) <;>
    (try simp only [Complex.I_sq, I_pow_3, sqrt2_sq, sqrt2_pow3, sqrt2_pow4, sqrt2_pow5,
      sqrt2_pow6, sqrt2_pow7]) <;> (try norm_num) <;> try ring_nf

theorem kak_recon_XY (g : XY) (c t : ℕ) :
    reconstructed c t g.kak_decomposition = g.unitary_matrix := by
  have h1 : (g.theta/4 - g.theta/4 : ℝ) = 0 := by ring
  have h2 : (g.theta/4 + g.theta/4 : ℝ) = g.theta/2 := by ring
  simp only [reconstructed, XY.kak_decomposition, XY.unitary_matrix, Option.getD_none,
    circuitUnitary, List.foldl_nil, Matrix.one_mul, Matrix.mul_one, kakNonlocal_closed,
    Matrix.cons_val_zero, Matrix.cons_val_one, Matrix.head_cons, Matrix.cons_val_two,
    Matrix.cons_val_three, Matrix.cons_val_succ, Matrix.vecHead, Matrix.vecTail,
    Function.comp_apply]
  rw [kakBlock, smul4]
  simp only [h1, h2, cexp_I_eq, cexp_negI_eq, Real.cos_zero, Real.sin_zero]
  refine eq4_of ?_ ?_ ?_ ?_ ?_ ?_ ?_ ?_ ?_ ?_ ?_ ?_ ?_ ?_ ?_ ?_ <;> push_cast <;>
    (try ring_nf) <;> (try simp only [Complex.I_sq, I_pow_3]) <;> (try norm_num) <;>
    (try ring_nf) <;> try norm_num

theorem kak_recon_MolmerSorensenXX (g : MolmerSorensenXX) (c t : ℕ) :
    reconstructed c t g.kak_decomposition = g.unitary_matrix := by
  have h1 : ((-1) * π / 4 - 0 : ℝ) = -(π/4) := by ring
  have h2 : ((-1) * π / 4 + 0 : ℝ) = -(π/4) := by ring
  simp only [reconstructed, MolmerSorensenXX.kak_decomposition, MolmerSorensenXX.unitary_matrix,
    Option.getD_none, circuitUnitary, List.foldl_nil, Matrix.one_mul, Matrix.mul_one,
    kakNonlocal_closed, Matrix.cons_val_zero, Matrix.cons_val_one, Matrix.head_cons,
    Matrix.cons_val_two, Matrix.cons_val_three, Matrix.cons_val_succ, Matrix.vecHead,
    Matrix.vecTail, Function.comp_apply]
  rw [kakBlock, smul4]
  simp only [h1, h2, cexp_I_eq, cexp_negI_eq, Real.cos_neg, Real.sin_neg,
    Real.cos_pi_div_four, Real.sin_pi_div_four, Real.cos_zero, Real.sin_zero]
  have hs : ((Real.sqrt 2 : ℝ) : ℂ) ≠ 0 := by
    simp only [ne_eq, Complex.ofReal_eq_zero]
    positivity
  refine eq4_of ?_ ?_ ?_ ?_ ?_ ?_ ?_ ?_ ?_ ?_ ?_ ?_ ?_ ?_ ?_ ?_ <;> push_cast <;>
    (try norm_num) <;> (try field_simp) <;> (try ring_nf) <;>
    (try simp only [Complex.I_sq, I_pow_3, sqrt2_sq, sqrt2_pow3, sqrt2_pow4, sqrt2_pow5,
      sqrt2_pow6, sqrt2_pow7]) <;> (try norm_num) <;> try ring_nf

theorem kak_recon_VariableMSXX (g : VariableMSXX) (c t : ℕ) :
    reconstructed c t g.kak_decomposition = g.unitary_matrix := by
  have h1 : (g.theta * (-1/2) - 0 : ℝ) = -(g.theta/2) := by ring
  have h2 : (g.theta * (-1/2) + 0 : ℝ) = -(g.theta/2) := by ring
  simp only [reconstructed, VariableMSXX.kak_decomposition, VariableMSXX.unitary_matrix,
    Option.getD_none, circuitUnitary, List.foldl_nil, Matrix.one_mul, Matrix.mul_one,
    kakNonlocal_closed, Matrix.cons_val_zero, Matrix.cons_val_one, Matrix.head_cons,
    Matrix.cons_val_two, Matrix.cons_val_three, Matrix.cons_val_succ, Matrix.vecHead,
    Matrix.vecTail, Function.comp_apply]
  rw [kakBlock, smul4]
  simp only [h1, h2, cexp_I_eq, cexp_negI_eq, Real.cos_neg, Real.sin_neg,
    Real.cos_zero, Real.sin_zero]
  refine eq4_of ?_ ?_ ?_ ?_ ?_ ?_ ?_ ?_ ?_ ?_ ?_ ?_ ?_ ?_ ?_ ?_ <;> push_cast <;>
    (try ring_nf) <;> (try simp only [Complex.I_sq, I_pow_3]) <;> (try norm_num) <;>
    (try ring_nf) <;> try norm_num

theorem kak_recon_PMInteraction (g : PMInteraction) (c t : ℕ) :
    reconstructed c t g.kak_decomposition = g.unitary_matrix := by
  have h1 : (g.t / (-2) - g.t / (-2) : ℝ) = 0 := by ring
  have h2 : (g.t / (-2) + g.t / (-2) : ℝ) = -g.t := by ring
  simp only [reconstructed, PMInteraction.kak_decomposition, PMInteraction.unitary_matrix,
    Option.getD_none, circuitUnitary, List.foldl_nil, Matrix.one_mul, Matrix.mul_one,
    kakNonlocal_closed, Matrix.cons_val_zero, Matrix.cons_val_one, Matrix.head_cons,
    Matrix.cons_val_two, Matrix.cons_val_three, Matrix.cons_val_succ, Matrix.vecHead,
    Matrix.vecTail, Function.comp_apply]
  rw [kakBlock, smul4]
  simp only [h1, h2, cexp_I_eq, cexp_negI_eq, Real.cos_neg, Real.sin_neg,
    Real.cos_zero, Real.sin_zero]
  refine eq4_of ?_ ?_ ?_ ?_ ?_ ?_ ?_ ?_ ?_ ?_ ?_ ?_ ?_ ?_ ?_ ?_ <;> push_cast <;>
    (try ring_nf) <;> (try simp only [Complex.I_sq, I_pow_3]) <;> (try norm_num) <;>
    (try ring_nf) <;> try norm_num

theorem kak_recon_SpinInteraction (g : SpinInteraction) (c t : ℕ) :
    reconstructed c t g.kak_decomposition = g.unitary_matrix := by
  have h1 : (g.x * (-1) - g.y * (-1) : ℝ) = -(g.x - g.y) := by ring
  have h2 : (g.x * (-1) + g.y * (-1) : ℝ) = -(g.x + g.y) := by ring
  have h3 : (g.z * (-1) : ℝ) = -g.z := by ring
  simp only [reconstructed, SpinInteraction.kak_decomposition, SpinInteraction.unitary_matrix,
    Option.getD_none, circuitUnitary, List.foldl_nil, Matrix.one_mul, Matrix.mul_one,
    kakNonlocal_closed, Matrix.cons_val_zero, Matrix.cons_val_one, Matrix.head_cons,
    Matrix.cons_val_two, Matrix.cons_val_three, Matrix.cons_val_succ, Matrix.vecHead,
    Matrix.vecTail, Function.comp_apply]
  rw [kakBlock, smul4]
  simp only [h1, h2, h3, cexp_I_eq, cexp_negI_eq, Real.cos_neg, Real.sin_neg,
    Real.cos_zero, Real.sin_zero]
  refine eq4_of ?_ ?_ ?_ ?_ ?_ ?_ ?_ ?_ ?_ ?_ ?_ ?_ ?_ ?_ ?_ ?_ <;> push_cast <;>
    (try ring_nf) <;> (try simp only [Complex.I_sq, I_pow_3]) <;> (try norm_num) <;>
    (try ring_nf) <;> try norm_num

theorem kak_recon_Qsim (g : Qsim) (c t : ℕ) :
    reconstructed c t g.kak_decomposition = g.unitary_matrix := by
  have h1 : (g.x * (-1) + π/4 - (g.y * (-1) + π/4) : ℝ) = -(g.x - g.y) := by ring
  have h2 : (g.x * (-1) + π/4 + (g.y * (-1) + π/4) : ℝ) = π/2 - (g.x + g.y) := by ring
  have h3 : (g.z * (-1) + π/4 : ℝ) = π/4 - g.z := by ring
  have h4 : ((-1) * π / 4 : ℝ) = -(π/4) := by ring
  simp only [reconstructed, Qsim.kak_decomposition, Qsim.unitary_matrix,
    Option.getD_none, circuitUnitary, List.foldl_nil, Matrix.one_mul, Matrix.mul_one,
    kakNonlocal_closed, Matrix.cons_val_zero, Matrix.cons_val_one, Matrix.head_cons,
    Matrix.cons_val_two, Matrix.cons_val_three, Matrix.cons_val_succ, Matrix.vecHead,
    Matrix.vecTail, Function.comp_apply]
  rw [kakBlock, smul4]
  simp only [h1, h2, h3, h4, cexp_I_eq, cexp_negI_eq, Real.cos_neg, Real.sin_neg,
    Real.cos_pi_div_two_sub, Real.sin_pi_div_two_sub]
  simp only [Real.cos_sub, Real.sin_sub, Real.cos_pi_div_four, Real.sin_pi_div_four]
  refine eq4_of ?_ ?_ ?_ ?_ ?_ ?_ ?_ ?_ ?_ ?_ ?_ ?_ ?_ ?_ ?_ ?_ <;> push_cast <;>
    (try ring_nf) <;>
    (try simp only [Complex.I_sq, I_pow_3, I_pow_5, sqrt2_sq, sqrt2_pow3, sqrt2_pow4, sqrt2_pow5,
      sqrt2_pow6, sqrt2_pow7]) <;> (try norm_num) <;> (try ring_nf) <;> try norm_num

theorem tensorM_mulX (A B C D : Mat2) :
    tensorM A B * tensorM C D = tensorM (A * C) (B * D) := by
  rw [show A = !![A 0 0, A 0 1; A 1 0, A 1 1] from by ext i j; fin_cases i <;> fin_cases j <;> rfl,
    show B = !![B 0 0, B 0 1; B 1 0, B 1 1] from by ext i j; fin_cases i <;> fin_cases j <;> rfl,
    show C = !![C 0 0, C 0 1; C 1 0, C 1 1] from by ext i j; fin_cases i <;> fin_cases j <;> rfl,
    show D = !![D 0 0, D 0 1; D 1 0, D 1 1] from by ext i j; fin_cases i <;> fin_cases j <;> rfl,
    tensor_lit, tensor_lit, mul2, mul2, mul4, tensor_lit]
  refine eq4_of ?_ ?_ ?_ ?_ ?_ ?_ ?_ ?_ ?_ ?_ ?_ ?_ ?_ ?_ ?_ ?_ <;> ring

/-- Exponentials with real-multiple-of-`I` arguments merge additively. -/
theorem cexp_mergeL (a b : ℝ) :
    Complex.exp (I * (a:ℂ)) * Complex.exp (I * (b:ℂ)) = Complex.exp (I * ((a+b : ℝ):ℂ)) := by
  rw [← Complex.exp_add]
  push_cast
  ring_nf

/-- Merging under a trailing factor. -/
theorem cexp_mergeL2 (a b : ℝ) (z : ℂ) :
    Complex.exp (I * (a:ℂ)) * (Complex.exp (I * (b:ℂ)) * z) =
      Complex.exp (I * ((a+b : ℝ):ℂ)) * z := by
  rw [← mul_assoc, cexp_mergeL]

/-- Normal form for exponentials of negated arguments. -/
theorem cexp_negL (x : ℝ) :
    Complex.exp (-(I * (x:ℂ))) = Complex.exp (I * ((-x : ℝ):ℂ)) := by
  push_cast
  ring_nf

/-- Expansion of a merged exponential. -/
theorem cexp_I_eqL (t : ℝ) :
    Complex.exp (I * (t:ℂ)) = (Real.cos t : ℂ) + (Real.sin t : ℂ) * I := by
  rw [mul_comm, cexp_I_eq]

theorem kak_recon_ControlledPhaseShift (g : ControlledPhaseShift)
    (h : g.control ≠ g.target) :
    reconstructed g.control g.target g.kak_decomposition = g.unitary_matrix := by
  have ht : ¬ (g.target = g.control) := fun hh => h hh.symm
  simp only [reconstructed, ControlledPhaseShift.kak_decomposition,
    ControlledPhaseShift.unitary_matrix, Option.getD_none, Option.getD_some,
    circuitUnitary, List.foldl_cons, List.foldl_nil, opUnitary, eq_self_iff_true, if_true,
    ht, if_false, Matrix.mul_one, Matrix.one_mul, kakNonlocal_closed,
    Matrix.cons_val_zero, Matrix.cons_val_one, Matrix.head_cons, Matrix.cons_val_two,
    Matrix.cons_val_three, Matrix.cons_val_succ, Matrix.vecHead, Matrix.vecTail,
    Function.comp_apply]
  try simp only [tensorM_mulX, Matrix.mul_one, Matrix.one_mul]
  simp only [RotateZMat, one2, kakBlock, tensor_lit, mul4, smul4]
  simp only [sub_zero, add_zero, zero_add, Real.cos_zero, Real.sin_zero,
    Complex.ofReal_zero, Complex.ofReal_one, zero_mul, mul_zero, mul_one, one_mul,
    mul_assoc, mul_left_comm, mul_comm, cexp_negL, cexp_mergeL, cexp_mergeL2]
  have e1 : (g.theta/4 + (-(g.theta/2/2) + -(g.theta/2/2) + g.theta/4) : ℝ) = 0 := by ring
  have e2 : (g.theta/4 + (g.theta/2/2 + -(g.theta/2/2) + -(g.theta/4)) : ℝ) = 0 := by ring
  have e3 : (g.theta/4 + (g.theta/2/2 + g.theta/2/2 + g.theta/4) : ℝ) = g.theta := by ring
  simp only [e1, e2, e3, Complex.ofReal_zero, mul_zero, Complex.exp_zero, cexp_I_eqL]
  refine eq4_of ?_ ?_ ?_ ?_ ?_ ?_ ?_ ?_ ?_ ?_ ?_ ?_ ?_ ?_ ?_ ?_ <;> ring

theorem kak_recon_FSwap (g : FSwap) (h : g.control ≠ g.target) :
    reconstructed g.control g.target g.kak_decomposition = g.unitary_matrix := by
  have ht : ¬ (g.target = g.control) := fun hh => h hh.symm
  simp only [reconstructed, FSwap.kak_decomposition,
    FSwap.unitary_matrix, Option.getD_none, Option.getD_some,
    circuitUnitary, List.foldl_cons, List.foldl_nil, opUnitary, eq_self_iff_true, if_true,
    ht, if_false, Matrix.mul_one, Matrix.one_mul, kakNonlocal_closed,
    Matrix.cons_val_zero, Matrix.cons_val_one, Matrix.head_cons, Matrix.cons_val_two,
    Matrix.cons_val_three, Matrix.cons_val_succ, Matrix.vecHead, Matrix.vecTail,
    Function.comp_apply]
  try simp only [tensorM_mulX, Matrix.mul_one, Matrix.one_mul]
  simp only [RotateZMat, one2, kakBlock, tensor_lit, mul4, smul4]
  simp only [sub_zero, add_zero, zero_add, Real.cos_zero, Real.sin_zero,
    Real.cos_pi_div_two, Real.sin_pi_div_two,
    Complex.ofReal_zero, Complex.ofReal_one, zero_mul, mul_zero, mul_one, one_mul,
    mul_assoc, mul_left_comm, mul_comm, cexp_negL, cexp_mergeL, cexp_mergeL2]
  have c1 : (π/4 - π/4 : ℝ) = 0 := by ring
  have c2 : (π/4 + π/4 : ℝ) = π/2 := by ring
  have a1 : (-1 * (π / 2) + (-(-1 * (π / 2) / 2) + -(-1 * (π / 2) / 2)) : ℝ) = 0 := by ring
  have a2 : (-1 * (π / 2) + (-1 * (π / 2) / 2 + -1 * (π / 2) / 2) : ℝ) = -π := by ring
  have a3 : (-1 * (π / 2) + (-1 * (π / 2) / 2 + -(-1 * (π / 2) / 2)) : ℝ) = -(π/2) := by ring
  simp only [c1, c2, a1, a2, a3, neg_zero, Real.cos_zero, Real.sin_zero,
    Real.cos_pi_div_two, Real.sin_pi_div_two, Complex.ofReal_zero, Complex.ofReal_one,
    mul_zero, zero_mul, mul_one, one_mul, Complex.exp_zero, cexp_I_eqL, Real.cos_neg,
    Real.sin_neg, Real.cos_pi, Real.sin_pi]
  refine eq4_of ?_ ?_ ?_ ?_ ?_ ?_ ?_ ?_ ?_ ?_ ?_ ?_ ?_ ?_ ?_ ?_ <;> push_cast <;>
    first
    | ring1
    | (ring_nf; simp only [Complex.I_sq, I_pow_3]; norm_num; try ring1)

theorem kak_recon_ControlledPauliZ (g : ControlledPauliZ) (h : g.control ≠ g.target) :
    reconstructed g.control g.target g.kak_decomposition = g.unitary_matrix := by
  have ht : ¬ (g.target = g.control) := fun hh => h hh.symm
  simp only [reconstructed, ControlledPauliZ.kak_decomposition,
    ControlledPauliZ.unitary_matrix, Option.getD_none, Option.getD_some,
    circuitUnitary, List.foldl_cons, List.foldl_nil, opUnitary, eq_self_iff_true, if_true,
    ht, if_false, Matrix.mul_one, Matrix.one_mul, kakNonlocal_closed,
    Matrix.cons_val_zero, Matrix.cons_val_one, Matrix.head_cons, Matrix.cons_val_two,
    Matrix.cons_val_three, Matrix.cons_val_succ, Matrix.vecHead, Matrix.vecTail,
    Function.comp_apply]
  try simp only [tensorM_mulX, Matrix.mul_one, Matrix.one_mul]
  simp only [RotateZMat, one2, kakBlock, tensor_lit, mul4, smul4]
  simp only [sub_zero, add_zero, zero_add, Real.cos_zero, Real.sin_zero,
    Real.cos_pi_div_two, Real.sin_pi_div_two,
    Complex.ofReal_zero, Complex.ofReal_one, zero_mul, mul_zero, mul_one, one_mul,
    mul_assoc, mul_left_comm, mul_comm, cexp_negL, cexp_mergeL, cexp_mergeL2]
  have e1 : (π / 4 + (-(π / 2 / 2) + -(π / 2 / 2) + π / 4) : ℝ) = 0 := by ring
  have e2 : (π / 4 + (π / 2 / 2 + -(π / 2 / 2) + -(π / 4)) : ℝ) = 0 := by ring
  have e3 : (π / 4 + (π / 2 / 2 + π / 2 / 2 + π / 4) : ℝ) = π := by ring
  simp only [e1, e2, e3, Complex.ofReal_zero, mul_zero, Complex.exp_zero, cexp_I_eqL,
    Real.cos_pi, Real.sin_pi]
  refine eq4_of ?_ ?_ ?_ ?_ ?_ ?_ ?_ ?_ ?_ ?_ ?_ ?_ ?_ ?_ ?_ ?_ <;> push_cast <;> ring

theorem kak_recon_PhaseShiftedControlledZ (g : PhaseShiftedControlledZ) (h : g.control ≠ g.target) :
    reconstructed g.control g.target g.kak_decomposition = g.unitary_matrix := by
  have ht : ¬ (g.target = g.control) := fun hh => h hh.symm
  simp only [reconstructed, PhaseShiftedControlledZ.kak_decomposition,
    PhaseShiftedControlledZ.unitary_matrix, Option.getD_none, Option.getD_some,
    circuitUnitary, List.foldl_cons, List.foldl_nil, opUnitary, eq_self_iff_true, if_true,
    ht, if_false, Matrix.mul_one, Matrix.one_mul, kakNonlocal_closed,
    Matrix.cons_val_zero, Matrix.cons_val_one, Matrix.head_cons, Matrix.cons_val_two,
    Matrix.cons_val_three, Matrix.cons_val_succ, Matrix.vecHead, Matrix.vecTail,
    Function.comp_apply]
  try simp only [tensorM_mulX, Matrix.mul_one, Matrix.one_mul]
  simp only [RotateZMat, one2, kakBlock, tensor_lit, mul4, smul4]
  simp only [sub_zero, add_zero, zero_add, Real.cos_zero, Real.sin_zero,
    Real.cos_pi_div_two, Real.sin_pi_div_two,
    Complex.ofReal_zero, Complex.ofReal_one, zero_mul, mul_zero, mul_one, one_mul,
    mul_assoc, mul_left_comm, mul_comm, cexp_negL, cexp_mergeL, cexp_mergeL2]
  have e1 : (-(π / 2 / 2) + -(π / 2 / 2) + (-(g.phi / 2) + -(g.phi / 2) + π / 4) + (π / 4 + g.phi) : ℝ)
      = 0 := by ring
  have e2 : (π / 4 + g.phi + (π / 2 / 2 + -(π / 2 / 2) + (g.phi / 2 + -(g.phi / 2) + -(π / 4))) : ℝ)
      = g.phi := by ring
  have e3 : (π / 2 / 2 + π / 2 / 2 + (g.phi / 2 + g.phi / 2 + π / 4) + (π / 4 + g.phi) : ℝ)
      = g.phi * 2 + π := by ring
  simp only [e1, e2, e3, Complex.ofReal_zero, mul_zero, Complex.exp_zero, cexp_I_eqL,
    Real.cos_add, Real.sin_add, Real.cos_sub, Real.sin_sub, Real.cos_pi, Real.sin_pi]
  refine eq4_of ?_ ?_ ?_ ?_ ?_ ?_ ?_ ?_ ?_ ?_ ?_ ?_ ?_ ?_ ?_ ?_ <;> push_cast <;> ring

theorem kak_recon_GivensRotation (g : GivensRotation) (h : g.control ≠ g.target) :
    reconstructed g.control g.target g.kak_decomposition = g.unitary_matrix := by
  have ht : ¬ (g.target = g.control) := fun hh => h hh.symm
  simp only [reconstructed, GivensRotation.kak_decomposition,
    GivensRotation.unitary_matrix, Option.getD_none, Option.getD_some,
    circuitUnitary, List.foldl_cons, List.foldl_nil, opUnitary, eq_self_iff_true, if_true,
    ht, if_false, Matrix.mul_one, Matrix.one_mul, kakNonlocal_closed,
    Matrix.cons_val_zero, Matrix.cons_val_one, Matrix.head_cons, Matrix.cons_val_two,
    Matrix.cons_val_three, Matrix.cons_val_succ, Matrix.vecHead, Matrix.vecTail,
    Function.comp_apply]
  try simp only [tensorM_mulX, Matrix.mul_one, Matrix.one_mul]
  simp only [RotateZMat, one2, kakBlock, tensor_lit, mul4, smul4]
  simp only [sub_zero, add_zero, zero_add, Real.cos_zero, Real.sin_zero,
    Real.cos_pi_div_two, Real.sin_pi_div_two,
    Complex.ofReal_zero, Complex.ofReal_one, zero_mul, mul_zero, mul_one, one_mul,
    mul_assoc, mul_left_comm, mul_comm, cexp_negL, cexp_mergeL, cexp_mergeL2]
  have hs : (g.theta/2 - g.theta/2 : ℝ) = 0 := by ring
  have hc : (g.theta/2 + g.theta/2 : ℝ) = g.theta := by ring
  have a1 : (g.phi/2 + (-((g.phi + π/2)/2) + -(-1 * (π/2)/2)) : ℝ) = 0 := by ring
  have a2 : (g.phi/2 + ((g.phi + π/2)/2 + -(-1 * (π/2)/2)) : ℝ) = g.phi + π/2 := by ring
  have a3 : (g.phi/2 + ((g.phi + π/2)/2 + -1 * (π/2)/2) : ℝ) = g.phi := by ring
  have a4 : (g.phi/2 + (-1 * (π/2)/2 + -((g.phi + π/2)/2)) : ℝ) = -(π/2) := by ring
  simp only [hs, hc, a1, a2, a3, a4, neg_zero, Real.cos_zero, Real.sin_zero,
    Complex.ofReal_zero, Complex.ofReal_one, mul_zero, zero_mul, mul_one, one_mul,
    Complex.exp_zero, cexp_I_eqL, Real.cos_add, Real.sin_add, Real.cos_neg, Real.sin_neg,
    Real.cos_pi_div_two, Real.sin_pi_div_two]
  refine eq4_of ?_ ?_ ?_ ?_ ?_ ?_ ?_ ?_ ?_ ?_ ?_ ?_ ?_ ?_ ?_ ?_ <;> push_cast <;>
    first
    | ring1
    | (ring_nf; simp only [Complex.I_sq, I_pow_3]; norm_num; try ring1)

theorem kak_recon_GivensRotationLittleEndian (g : GivensRotationLittleEndian) (h : g.control ≠ g.target) :
    reconstructed g.control g.target g.kak_decomposition = g.unitary_matrix := by
  have ht : ¬ (g.target = g.control) := fun hh => h hh.symm
  simp only [reconstructed, GivensRotationLittleEndian.kak_decomposition,
    GivensRotationLittleEndian.unitary_matrix, Option.getD_none, Option.getD_some,
    circuitUnitary, List.foldl_cons, List.foldl_nil, opUnitary, eq_self_iff_true, if_true,
    ht, if_false, Matrix.mul_one, Matrix.one_mul, kakNonlocal_closed,
    Matrix.cons_val_zero, Matrix.cons_val_one, Matrix.head_cons, Matrix.cons_val_two,
    Matrix.cons_val_three, Matrix.cons_val_succ, Matrix.vecHead, Matrix.vecTail,
    Function.comp_apply]
  try simp only [tensorM_mulX, Matrix.mul_one, Matrix.one_mul]
  simp only [RotateZMat, one2, kakBlock, tensor_lit, mul4, smul4]
  simp only [sub_zero, add_zero, zero_add, Real.cos_zero, Real.sin_zero,
    Real.cos_pi_div_two, Real.sin_pi_div_two,
    Complex.ofReal_zero, Complex.ofReal_one, zero_mul, mul_zero, mul_one, one_mul,
    mul_assoc, mul_left_comm, mul_comm, cexp_negL, cexp_mergeL, cexp_mergeL2]
  have hs : (g.theta/2 - g.theta/2 : ℝ) = 0 := by ring
  have hc : (g.theta/2 + g.theta/2 : ℝ) = g.theta := by ring
  have a1 : (g.phi/2 + (-((g.phi + π/2)/2) + -(-1 * (π/2)/2)) : ℝ) = 0 := by ring
  have a2 : (g.phi/2 + ((g.phi + π/2)/2 + -(-1 * (π/2)/2)) : ℝ) = g.phi + π/2 := by ring
  have a3 : (g.phi/2 + ((g.phi + π/2)/2 + -1 * (π/2)/2) : ℝ) = g.phi := by ring
  have a4 : (g.phi/2 + (-1 * (π/2)/2 + -((g.phi + π/2)/2)) : ℝ) = -(π/2) := by ring
  simp only [hs, hc, a1, a2, a3, a4, neg_zero, Real.cos_zero, Real.sin_zero,
    Complex.ofReal_zero, Complex.ofReal_one, mul_zero, zero_mul, mul_one, one_mul,
    Complex.exp_zero, cexp_I_eqL, Real.cos_add, Real.sin_add, Real.cos_neg, Real.sin_neg,
    Real.cos_pi_div_two, Real.sin_pi_div_two]
  refine eq4_of ?_ ?_ ?_ ?_ ?_ ?_ ?_ ?_ ?_ ?_ ?_ ?_ ?_ ?_ ?_ ?_ <;> push_cast <;>
    first
    | ring1
    | (ring_nf; simp only [Complex.I_sq, I_pow_3]; norm_num; try ring1)

theorem kak_recon_Fsim (g : Fsim) (h : g.control ≠ g.target) :
    reconstructed g.control g.target g.kak_decomposition = g.unitary_matrix := by
  have ht : ¬ (g.target = g.control) := fun hh => h hh.symm
  simp only [reconstructed, Fsim.kak_decomposition,
    Fsim.unitary_matrix, Option.getD_none, Option.getD_some,
    circuitUnitary, List.foldl_cons, List.foldl_nil, opUnitary, eq_self_iff_true, if_true,
    ht, if_false, Matrix.mul_one, Matrix.one_mul, kakNonlocal_closed,
    Matrix.cons_val_zero, Matrix.cons_val_one, Matrix.head_cons, Matrix.cons_val_two,
    Matrix.cons_val_three, Matrix.cons_val_succ, Matrix.vecHead, Matrix.vecTail,
    Function.comp_apply]
  try simp only [tensorM_mulX, Matrix.mul_one, Matrix.one_mul]
  simp only [RotateZMat, one2, kakBlock, tensor_lit, mul4, smul4]
  simp only [sub_zero, add_zero, zero_add, Real.cos_zero, Real.sin_zero,
    Real.cos_pi_div_two, Real.sin_pi_div_two,
    Complex.ofReal_zero, Complex.ofReal_one, zero_mul, mul_zero, mul_one, one_mul,
    mul_assoc, mul_left_comm, mul_comm, cexp_negL, cexp_mergeL, cexp_mergeL2]
  have hf1 : (-((g.u / -2 - π / 2) / 2) + -((g.u / -2 - π / 2) / 2) + g.u / -4 + (g.u / -4 - π / 2) : ℝ)
      = 0 := by ring
  have hf2 : (g.u / -4 - π / 2 + ((g.u / -2 - π / 2) / 2 + -((g.u / -2 - π / 2) / 2) + -(g.u / -4)) : ℝ)
      = -(π/2) := by ring
  have hf3 : ((g.u / -2 - π / 2) / 2 + (g.u / -2 - π / 2) / 2 + g.u / -4 + (g.u / -4 - π / 2) : ℝ)
      = -(g.u + π) := by ring
  have hd : (g.t / -2 + g.delta / 2 + π / 4 - (g.t / -2 - g.delta / 2 + π / 4) : ℝ)
      = g.delta := by ring
  have hm : (g.t / -2 + g.delta / 2 + π / 4 + (g.t / -2 - g.delta / 2 + π / 4) : ℝ)
      = π/2 - g.t := by ring
  simp only [hf1, hf2, hf3, hd, hm, Complex.ofReal_zero, mul_zero, Complex.exp_zero,
    cexp_I_eqL, Real.cos_pi_div_two_sub, Real.sin_pi_div_two_sub]
  simp only [Real.cos_neg, Real.sin_neg, Real.cos_add, Real.sin_add, Real.cos_pi,
    Real.sin_pi, Real.cos_pi_div_two, Real.sin_pi_div_two]
  refine eq4_of ?_ ?_ ?_ ?_ ?_ ?_ ?_ ?_ ?_ ?_ ?_ ?_ ?_ ?_ ?_ ?_ <;> push_cast <;>
    first
    | ring1
    | (ring_nf; simp only [Complex.I_sq, I_pow_3]; norm_num; try ring1)

theorem kak_recon_Bogoliubov (g : Bogoliubov) (h : g.control ≠ g.target) :
    reconstructed g.control g.target g.kak_decomposition = g.unitary_matrix := by
  have ht : ¬ (g.target = g.control) := fun hh => h hh.symm
  simp only [reconstructed, Bogoliubov.kak_decomposition,
    Bogoliubov.unitary_matrix, Option.getD_none, Option.getD_some,
    circuitUnitary, List.foldl_cons, List.foldl_nil, opUnitary, eq_self_iff_true, if_true,
    ht, if_false, Matrix.mul_one, Matrix.one_mul, kakNonlocal_closed,
    Matrix.cons_val_zero, Matrix.cons_val_one, Matrix.head_cons, Matrix.cons_val_two,
    Matrix.cons_val_three, Matrix.cons_val_succ, Matrix.vecHead, Matrix.vecTail,
    Function.comp_apply]
  try simp only [tensorM_mulX, Matrix.mul_one, Matrix.one_mul]
  simp only [RotateZMat, one2, kakBlock, tensor_lit, mul4, smul4]
  simp only [sub_zero, add_zero, zero_add, Real.cos_zero, Real.sin_zero,
    Real.cos_pi_div_two, Real.sin_pi_div_two,
    Complex.ofReal_zero, Complex.ofReal_one, zero_mul, mul_zero, mul_one, one_mul,
    mul_assoc, mul_left_comm, mul_comm, cexp_negL, cexp_mergeL, cexp_mergeL2]
  have b1 : (-(complexArg g.delta_real g.delta_imag / 2) +
      -(-1 * complexArg g.delta_real g.delta_imag / 2) : ℝ) = 0 := by ring
  have b2 : (complexArg g.delta_real g.delta_imag / 2 +
      -(-1 * complexArg g.delta_real g.delta_imag / 2) : ℝ)
      = complexArg g.delta_real g.delta_imag := by ring
  have b3 : (complexArg g.delta_real g.delta_imag / 2 +
      -1 * complexArg g.delta_real g.delta_imag / 2 : ℝ) = 0 := by ring
  have b4 : (-1 * complexArg g.delta_real g.delta_imag / 2 +
      -(complexArg g.delta_real g.delta_imag / 2) : ℝ)
      = -(complexArg g.delta_real g.delta_imag) := by ring
  have n1 : (complexNorm g.delta_real g.delta_imag / 2 -
      complexNorm g.delta_real g.delta_imag / (-2) : ℝ)
      = complexNorm g.delta_real g.delta_imag := by ring
  have n2 : (complexNorm g.delta_real g.delta_imag / 2 +
      complexNorm g.delta_real g.delta_imag / (-2) : ℝ) = 0 := by ring
  simp only [b1, b2, b3, b4, n1, n2, neg_zero, Real.cos_zero, Real.sin_zero,
    Complex.ofReal_zero, Complex.ofReal_one, mul_zero, zero_mul, mul_one, one_mul,
    Complex.exp_zero, cexp_I_eqL, Real.cos_neg, Real.sin_neg]
  refine eq4_of ?_ ?_ ?_ ?_ ?_ ?_ ?_ ?_ ?_ ?_ ?_ ?_ ?_ ?_ ?_ ?_ <;> push_cast <;>
    first
    | ring1
    | (ring_nf; simp only [Complex.I_sq, I_pow_3]; norm_num; try ring1)

theorem kak_recon_ComplexPMInteraction (g : ComplexPMInteraction) (h : g.control ≠ g.target) :
    reconstructed g.control g.target g.kak_decomposition = g.unitary_matrix := by
  have ht : ¬ (g.target = g.control) := fun hh => h hh.symm
  simp only [reconstructed, ComplexPMInteraction.kak_decomposition,
    ComplexPMInteraction.unitary_matrix, Option.getD_none, Option.getD_some,
    circuitUnitary, List.foldl_cons, List.foldl_nil, opUnitary, eq_self_iff_true, if_true,
    ht, if_false, Matrix.mul_one, Matrix.one_mul, kakNonlocal_closed,
    Matrix.cons_val_zero, Matrix.cons_val_one, Matrix.head_cons, Matrix.cons_val_two,
    Matrix.cons_val_three, Matrix.cons_val_succ, Matrix.vecHead, Matrix.vecTail,
    Function.comp_apply]
  try simp only [tensorM_mulX, Matrix.mul_one, Matrix.one_mul]
  simp only [RotateZMat, one2, kakBlock, tensor_lit, mul4, smul4]
  simp only [sub_zero, add_zero, zero_add, Real.cos_zero, Real.sin_zero,
    Real.cos_pi_div_two, Real.sin_pi_div_two,
    Complex.ofReal_zero, Complex.ofReal_one, zero_mul, mul_zero, mul_one, one_mul,
    mul_assoc, mul_left_comm, mul_comm, cexp_negL, cexp_mergeL, cexp_mergeL2]
  have b1 : (-(complexArg g.t_real g.t_imag / 2) +
      -(-1 * complexArg g.t_real g.t_imag / 2) : ℝ) = 0 := by ring
  have b2 : (complexArg g.t_real g.t_imag / 2 +
      -(-1 * complexArg g.t_real g.t_imag / 2) : ℝ)
      = complexArg g.t_real g.t_imag := by ring
  have b3 : (complexArg g.t_real g.t_imag / 2 +
      -1 * complexArg g.t_real g.t_imag / 2 : ℝ) = 0 := by ring
  have b4 : (-1 * complexArg g.t_real g.t_imag / 2 +
      -(complexArg g.t_real g.t_imag / 2) : ℝ)
      = -(complexArg g.t_real g.t_imag) := by ring
  have m1 : (complexNorm g.t_real g.t_imag / (-2) -
      complexNorm g.t_real g.t_imag / (-2) : ℝ) = 0 := by ring
  have m2 : (complexNorm g.t_real g.t_imag / (-2) +
      complexNorm g.t_real g.t_imag / (-2) : ℝ)
      = -(complexNorm g.t_real g.t_imag) := by ring
  simp only [b1, b2, b3, b4, m1, m2, neg_zero, Real.cos_zero, Real.sin_zero,
    Complex.ofReal_zero, Complex.ofReal_one, mul_zero, zero_mul, mul_one, one_mul,
    Complex.exp_zero, cexp_I_eqL, Real.cos_neg, Real.sin_neg]
  refine eq4_of ?_ ?_ ?_ ?_ ?_ ?_ ?_ ?_ ?_ ?_ ?_ ?_ ?_ ?_ ?_ ?_ <;> push_cast <;>
    first
    | ring1
    | (ring_nf; simp only [Complex.I_sq, I_pow_3]; norm_num; try ring1)

theorem kak_recon_CNOT (g : CNOT) (h : g.control ≠ g.target) :
    reconstructed g.control g.target g.kak_decomposition = g.unitary_matrix := by
  have ht : ¬ (g.target = g.control) := fun hh => h hh.symm
  have e1 : Real.cos ((π/2)/2) = Real.sqrt 2/2 := by
    rw [show (π/2)/2 = π/4 by ring, Real.cos_pi_div_four]
  have e2 : Real.sin ((π/2)/2) = Real.sqrt 2/2 := by
    rw [show (π/2)/2 = π/4 by ring, Real.sin_pi_div_four]
  have e3 : Real.cos (((π/2) * (-1))/2) = Real.sqrt 2/2 := by
    rw [show ((π/2) * (-1))/2 = -(π/4) by ring, Real.cos_neg, Real.cos_pi_div_four]
  have e4 : Real.sin (((π/2) * (-1))/2) = -(Real.sqrt 2/2) := by
    rw [show ((π/2) * (-1))/2 = -(π/4) by ring, Real.sin_neg, Real.sin_pi_div_four]
  simp only [reconstructed, CNOT.kak_decomposition,
    CNOT.unitary_matrix, Option.getD_none, Option.getD_some,
    circuitUnitary, List.foldl_cons, List.foldl_nil, opUnitary, eq_self_iff_true, if_true,
    ht, if_false, Matrix.mul_one, Matrix.one_mul, kakNonlocal_closed,
    Matrix.cons_val_zero, Matrix.cons_val_one, Matrix.head_cons, Matrix.cons_val_two,
    Matrix.cons_val_three, Matrix.cons_val_succ, Matrix.vecHead, Matrix.vecTail,
    Function.comp_apply]
  try simp only [tensorM_mulX, Matrix.mul_one, Matrix.one_mul]
  simp only [RotateXMat, RotateYMat, RotateZMat, one2, mul2, kakBlock, tensor_lit, mul4, smul4]
  simp only [cexp_negI_eq, cexp_I_eq]
  simp only [e1, e2, e3, e4, sub_zero, add_zero, zero_sub, Real.cos_zero, Real.sin_zero,
    Real.cos_neg, Real.sin_neg, Real.cos_pi_div_four, Real.sin_pi_div_four,
    Complex.ofReal_zero, Complex.ofReal_one, zero_mul, mul_zero, mul_one, one_mul]
  refine eq4_of ?_ ?_ ?_ ?_ ?_ ?_ ?_ ?_ ?_ ?_ ?_ ?_ ?_ ?_ ?_ ?_ <;> push_cast <;>
    ring_nf <;>
    (try simp only [Complex.I_sq, I_pow_3, I_pow_5, sqrt2_sq, sqrt2_pow3, sqrt2_pow4, sqrt2_pow5,
      sqrt2_pow6, sqrt2_pow7]) <;> (try norm_num) <;> (try ring_nf) <;> try norm_num

theorem kak_recon_ControlledPauliY (g : ControlledPauliY) (h : g.control ≠ g.target) :
    reconstructed g.control g.target g.kak_decomposition = g.unitary_matrix := by
  have ht : ¬ (g.target = g.control) := fun hh => h hh.symm
  have e1 : Real.cos ((π/2)/2) = Real.sqrt 2/2 := by
    rw [show (π/2)/2 = π/4 by ring, Real.cos_pi_div_four]
  have e2 : Real.sin ((π/2)/2) = Real.sqrt 2/2 := by
    rw [show (π/2)/2 = π/4 by ring, Real.sin_pi_div_four]
  have e3 : Real.cos (((π/2) * (-1))/2) = Real.sqrt 2/2 := by
    rw [show ((π/2) * (-1))/2 = -(π/4) by ring, Real.cos_neg, Real.cos_pi_div_four]
  have e4 : Real.sin (((π/2) * (-1))/2) = -(Real.sqrt 2/2) := by
    rw [show ((π/2) * (-1))/2 = -(π/4) by ring, Real.sin_neg, Real.sin_pi_div_four]
  simp only [reconstructed, ControlledPauliY.kak_decomposition,
    ControlledPauliY.unitary_matrix, Option.getD_none, Option.getD_some,
    circuitUnitary, List.foldl_cons, List.foldl_nil, opUnitary, eq_self_iff_true, if_true,
    ht, if_false, Matrix.mul_one, Matrix.one_mul, kakNonlocal_closed,
    Matrix.cons_val_zero, Matrix.cons_val_one, Matrix.head_cons, Matrix.cons_val_two,
    Matrix.cons_val_three, Matrix.cons_val_succ, Matrix.vecHead, Matrix.vecTail,
    Function.comp_apply]
  try simp only [tensorM_mulX, Matrix.mul_one, Matrix.one_mul]
  simp only [RotateXMat, RotateYMat, RotateZMat, one2, mul2, kakBlock, tensor_lit, mul4, smul4]
  simp only [cexp_negI_eq, cexp_I_eq]
  simp only [e1, e2, e3, e4, sub_zero, add_zero, zero_sub, Real.cos_zero, Real.sin_zero,
    Real.cos_neg, Real.sin_neg, Real.cos_pi_div_four, Real.sin_pi_div_four,
    Complex.ofReal_zero, Complex.ofReal_one, zero_mul, mul_zero, mul_one, one_mul]
  refine eq4_of ?_ ?_ ?_ ?_ ?_ ?_ ?_ ?_ ?_ ?_ ?_ ?_ ?_ ?_ ?_ ?_ <;> push_cast <;>
    ring_nf <;>
    (try simp only [Complex.I_sq, I_pow_3, I_pow_5, sqrt2_sq, sqrt2_pow3, sqrt2_pow4, sqrt2_pow5,
      sqrt2_pow6, sqrt2_pow7]) <;> (try norm_num) <;> (try ring_nf) <;> try norm_num

/-! ### Shared helper lemmas for the capability surface -/

theorem withQubits_control (g : TwoQubitGateOperation) (c t : ℕ) :
    (g.withQubits c t).control = c := by cases g <;> rfl

theorem withQubits_target (g : TwoQubitGateOperation) (c t : ℕ) :
    (g.withQubits c t).target = t := by cases g <;> rfl

theorem remapAll_isSome (M : ℕ → Option ℕ) (qs : List ℕ) :
    (remapAll M qs).isSome ↔ ∀ q ∈ qs, (M q).isSome := by
  induction qs with
  | nil => simp [remapAll]
  | cons q qs ih =>
    rw [remapAll]
    cases hq : M q <;> cases hqs : remapAll M qs <;> simp_all

/-! ### The claims -/

/-- C1: for every two-qubit gate on distinct wires, the matrix reconstructed
from `kak_decomposition` — `exp(i·global_phase)` times the circuit-after
unitary times the canonical block times the circuit-before unitary, with an
absent circuit counting as the identity — is exactly the gate's
`unitary_matrix` (exact equality of the embeddings, hence agreement within any
per-entry tolerance for concrete parameters). -/
theorem C1_kak_reconstruction_matches_unitary (op : TwoQubitGateOperation)
    (h : op.control ≠ op.target) :
    reconstructed op.control op.target op.kak_decomposition = op.unitary_matrix := by
  cases op with
  | cnot g => exact kak_recon_CNOT g h
  | swap g => exact kak_recon_SWAP g g.control g.target
  | iswap g => exact kak_recon_ISwap g g.control g.target
  | fswap g => exact kak_recon_FSwap g h
  | sqrtISwap g => exact kak_recon_SqrtISwap g g.control g.target
  | invSqrtISwap g => exact kak_recon_InvSqrtISwap g g.control g.target
  | xy g => exact kak_recon_XY g g.control g.target
  | controlledPhaseShift g => exact kak_recon_ControlledPhaseShift g h
  | controlledPauliY g => exact kak_recon_ControlledPauliY g h
  | controlledPauliZ g => exact kak_recon_ControlledPauliZ g h
  | molmerSorensenXX g => exact kak_recon_MolmerSorensenXX g g.control g.target
  | variableMSXX g => exact kak_recon_VariableMSXX g g.control g.target
  | givensRotation g => exact kak_recon_GivensRotation g h
  | givensRotationLittleEndian g => exact kak_recon_GivensRotationLittleEndian g h
  | qsim g => exact kak_recon_Qsim g g.control g.target
  | fsim g => exact kak_recon_Fsim g h
  | spinInteraction g => exact kak_recon_SpinInteraction g g.control g.target
  | bogoliubov g => exact kak_recon_Bogoliubov g h
  | pmInteraction g => exact kak_recon_PMInteraction g g.control g.target
  | complexPMInteraction g => exact kak_recon_ComplexPMInteraction g h
  | phaseShiftedControlledZ g => exact kak_recon_PhaseShiftedControlledZ g h

/-- Witness for C1 at the concrete gate `CNOT(0, 1)`. -/
theorem C1_kak_reconstruction_matches_unitary_witness :
    (TwoQubitGateOperation.cnot ⟨0, 1⟩).control ≠ (TwoQubitGateOperation.cnot ⟨0, 1⟩).target
    ∧ reconstructed (TwoQubitGateOperation.cnot ⟨0, 1⟩).control
        (TwoQubitGateOperation.cnot ⟨0, 1⟩).target
        (TwoQubitGateOperation.cnot ⟨0, 1⟩).kak_decomposition
      = (TwoQubitGateOperation.cnot ⟨0, 1⟩).unitary_matrix :=
  ⟨by decide, C1_kak_reconstruction_matches_unitary (.cnot ⟨0, 1⟩) (by decide)⟩

/-- C2: `MultiCNOT([0,1,2]).circuit()` is exactly the ordered Toffoli-style
template the test asserts — which consists of 15 operations, not 16. -/
theorem C2_multicnot_circuit_is_toffoli_template :
    (MultiCNOT.mk [0, 1, 2]).circuit =
      [.Hadamard 2, .CNOTGate 1 2, .PhaseShiftState1 2 (-(π/4)), .CNOTGate 0 2,
       .TGate 2, .CNOTGate 1 2, .PhaseShiftState1 2 (-(π/4)), .CNOTGate 0 2,
       .TGate 1, .TGate 2, .Hadamard 2, .CNOTGate 0 1, .TGate 0,
       .PhaseShiftState1 1 (-(π/4)), .CNOTGate 0 1]
    ∧ (MultiCNOT.mk [0, 1, 2]).circuit.length = 15 :=
  ⟨rfl, rfl⟩

/-- Counterexample to the operation count asserted by C2: the template has 15
operations, not 16. -/
theorem C2_counterexample : (MultiCNOT.mk [0, 1, 2]).circuit.length ≠ 16 := by
  rw [show (MultiCNOT.mk [0, 1, 2]).circuit.length = 15 from rfl]
  norm_num

/-- C3 (corrected): `MolmerSorensenXX` is the `θ = +π/2` instance of
`VariableMSXX`, not the `θ = −π/2` one. -/
theorem C3_molmersorensen_is_variablemsxx_at_plus_pi_half (c t : ℕ) :
    (VariableMSXX.mk c t (π/2)).unitary_matrix = (MolmerSorensenXX.mk c t).unitary_matrix := by
  have hs : (Real.sqrt 2 : ℝ) ≠ 0 := by positivity
  have h1 : Real.cos ((π/2)/2) = Real.sqrt 2/2 := by
    rw [show (π/2)/2 = π/4 by ring, Real.cos_pi_div_four]
  have h2 : Real.sin ((π/2)/2) = Real.sqrt 2/2 := by
    rw [show (π/2)/2 = π/4 by ring, Real.sin_pi_div_four]
  have h3 : (1/Real.sqrt 2 : ℝ) = Real.sqrt 2/2 := by
    rw [div_eq_div_iff hs (by norm_num : (2:ℝ) ≠ 0), one_mul]
    exact (Real.mul_self_sqrt (by norm_num)).symm
  have h3c : (1/(Real.sqrt 2 : ℂ) : ℂ) = (Real.sqrt 2 : ℂ)/2 := by
    rw [div_eq_div_iff (Complex.ofReal_ne_zero.mpr hs) (by norm_num : (2:ℂ) ≠ 0), one_mul,
      ← sq, sqrt2_sq]
  simp only [VariableMSXX.unitary_matrix, MolmerSorensenXX.unitary_matrix, h1, h2, h3, h3c]
  refine eq4_of ?_ ?_ ?_ ?_ ?_ ?_ ?_ ?_ ?_ ?_ ?_ ?_ ?_ ?_ ?_ ?_ <;> push_cast <;> ring

/-- Counterexample to C3 as stated: at `θ = −π/2` the anti-diagonal of
`VariableMSXX` is `+i/√2`, not the `−i/√2` of `MolmerSorensenXX`. -/
theorem C3_counterexample :
    (VariableMSXX.mk 0 1 (-(π/2))).unitary_matrix ≠ (MolmerSorensenXX.mk 0 1).unitary_matrix := by
  intro hc
  have h : (VariableMSXX.mk 0 1 (-(π/2))).unitary_matrix 0 3 =
      (MolmerSorensenXX.mk 0 1).unitary_matrix 0 3 := by rw [hc]
  have hsin : Real.sin ((-(π/2))/2) = -(Real.sqrt 2/2) := by
    rw [show (-(π/2))/2 = -(π/4) by ring, Real.sin_neg, Real.sin_pi_div_four]
  simp only [VariableMSXX.unitary_matrix, MolmerSorensenXX.unitary_matrix,
    Matrix.cons_val_zero, Matrix.cons_val_one, Matrix.cons_val_two, Matrix.cons_val_three,
    Matrix.cons_val_succ, Matrix.head_cons, Matrix.vecHead, Matrix.vecTail,
    Function.comp_apply, hsin] at h
  have h2 := mul_right_cancel₀ Complex.I_ne_zero h
  have h3 := Complex.ofReal_inj.mp h2
  have hpos : 0 < Real.sqrt 2 := Real.sqrt_pos.mpr (by norm_num)
  have hinv : 0 < 1/Real.sqrt 2 := by positivity
  nlinarith [h3, hpos, hinv]

/-- C4: the `Qsim` unitary is the `SpinInteraction` unitary with rows 1 and 2
exchanged (rows 0 and 3 coincide). -/
theorem C4_qsim_is_row_swapped_spininteraction (c t : ℕ) (x y z : ℝ) :
    (Qsim.mk c t x y z).unitary_matrix =
      ((SpinInteraction.mk c t x y z).unitary_matrix).submatrix swap12 id := by
  ext i j
  fin_cases i <;> fin_cases j <;>
    simp [Qsim.unitary_matrix, SpinInteraction.unitary_matrix, Matrix.submatrix_apply,
      swap12, Matrix.vecHead, Matrix.vecTail]

/-- C5: the KAK record of `Fsim` has exactly the phase, `k`-vector and
`RotateZ` correction circuit stated by the spec. -/
theorem C5_fsim_kak_fields (c q : ℕ) (t u delta : ℝ) :
    (Fsim.mk c q t u delta).kak_decomposition =
      ⟨-(u/4) - π/2,
       ![-(t/2) + delta/2 + π/4, -(t/2) - delta/2 + π/4, -(u/4)],
       none,
       some [.RotateZ c (-(u/2) - π/2), .RotateZ q (-(u/2) - π/2)]⟩ := by
  have hth : u / (-2) - π/2 = -(u/2) - π/2 := by ring
  have hph : u / (-4) - π/2 = -(u/4) - π/2 := by ring
  have hkv : (![t / (-2) + delta / 2 + π/4, t / (-2) - delta / 2 + π/4, u / (-4)] : Fin 3 → ℝ)
      = ![-(t/2) + delta/2 + π/4, -(t/2) - delta/2 + π/4, -(u/4)] := by
    funext i
    fin_cases i <;>
      simp [Matrix.cons_val_zero, Matrix.cons_val_one, Matrix.head_cons, Matrix.vecHead,
        Matrix.vecTail] <;> ring
  simp only [Fsim.kak_decomposition]
  rw [hph, hkv, hth]

/-- C6: `remap_qubits` succeeds exactly when every involved qubit is a key of
the map, and then the involved qubits of the result are the images of the
original involved qubits. -/
theorem C6_remap_qubits_totality (G : GateOperation) (M : ℕ → Option ℕ) :
    ((G.remap_qubits M).isSome ↔ ∀ q ∈ G.involved_qubits, (M q).isSome)
    ∧ ∀ G', G.remap_qubits M = some G' →
        remapAll M G.involved_qubits = some G'.involved_qubits := by
  cases G with
  | twoQubit g =>
    constructor
    · cases hc : M g.control <;> cases ht : M g.target <;>
        simp [GateOperation.remap_qubits, TwoQubitGateOperation.remap_qubits,
          GateOperation.involved_qubits, hc, ht]
    · intro G' hG'
      cases hc : M g.control <;> cases ht : M g.target <;>
        simp [GateOperation.remap_qubits, TwoQubitGateOperation.remap_qubits,
          hc, ht] at hG'
      subst hG'
      simp [GateOperation.involved_qubits, remapAll, hc, ht,
        withQubits_control, withQubits_target]
  | multiMS g =>
    constructor
    · simp [GateOperation.remap_qubits, MultiQubitMS.remap_qubits,
        GateOperation.involved_qubits, remapAll_isSome]
    · intro G' hG'
      cases hqs : remapAll M g.qubits with
      | none =>
        simp [GateOperation.remap_qubits, MultiQubitMS.remap_qubits, hqs] at hG'
      | some qsb =>
        simp [GateOperation.remap_qubits, MultiQubitMS.remap_qubits, hqs] at hG'
        subst hG'
        simp [GateOperation.involved_qubits, hqs]
  | multiZZ g =>
    constructor
    · simp [GateOperation.remap_qubits, MultiQubitZZ.remap_qubits,
        GateOperation.involved_qubits, remapAll_isSome]
    · intro G' hG'
      cases hqs : remapAll M g.qubits with
      | none =>
        simp [GateOperation.remap_qubits, MultiQubitZZ.remap_qubits, hqs] at hG'
      | some qsb =>
        simp [GateOperation.remap_qubits, MultiQubitZZ.remap_qubits, hqs] at hG'
        subst hG'
        simp [GateOperation.involved_qubits, hqs]
  | multiCNOT g =>
    constructor
    · simp [GateOperation.remap_qubits, MultiCNOT.remap_qubits,
        GateOperation.involved_qubits, remapAll_isSome]
    · intro G' hG'
      cases hqs : remapAll M g.qubits with
      | none =>
        simp [GateOperation.remap_qubits, MultiCNOT.remap_qubits, hqs] at hG'
      | some qsb =>
        simp [GateOperation.remap_qubits, MultiCNOT.remap_qubits, hqs] at hG'
        subst hG'
        simp [GateOperation.involved_qubits, hqs]

/-- Witness for C6: the test's map `{0↦1, 1↦2, 2↦0}` on `MultiQubitMS([0,1,2])`. -/
theorem C6_remap_qubits_totality_witness :
    (((GateOperation.multiMS ⟨[0, 1, 2], .Symbolic (.var "theta")⟩).remap_qubits
        (fun q => if q = 0 then some 1 else if q = 1 then some 2 else
          if q = 2 then some 0 else none)).isSome ↔
      ∀ q ∈ (GateOperation.multiMS ⟨[0, 1, 2], .Symbolic (.var "theta")⟩).involved_qubits,
        ((fun q => if q = 0 then some 1 else if q = 1 then some 2 else
          if q = 2 then some 0 else none) q).isSome)
    ∧ ∀ G', (GateOperation.multiMS ⟨[0, 1, 2], .Symbolic (.var "theta")⟩).remap_qubits
        (fun q => if q = 0 then some 1 else if q = 1 then some 2 else
          if q = 2 then some 0 else none) = some G' →
        remapAll (fun q => if q = 0 then some 1 else if q = 1 then some 2 else
          if q = 2 then some 0 else none)
          (GateOperation.multiMS ⟨[0, 1, 2], .Symbolic (.var "theta")⟩).involved_qubits
          = some G'.involved_qubits :=
  C6_remap_qubits_totality (GateOperation.multiMS ⟨[0, 1, 2], .Symbolic (.var "theta")⟩)
    (fun q => if q = 0 then some 1 else if q = 1 then some 2 else
      if q = 2 then some 0 else none)

/-- C7 (corrected): for every rotation-carrying gate, `powercf` scales the
angle — `powercf(k).theta == k·theta` — and preserves every other field, for
every `k` and `theta` (for the multi-qubit gates including symbolic angles);
`powercf(1) == G` and `powercf(0).theta() == 0` hold whenever the angle is
concrete (which is all the real-valued two-qubit embedding carries), and fail
structurally for a symbolic angle (see the counterexample). -/
theorem C7_powercf_linearity :
    (∀ (g : XY) (k : ℝ),
        (g.powercf k).theta = k * g.theta ∧ (g.powercf k).control = g.control
        ∧ (g.powercf k).target = g.target
        ∧ g.powercf 1 = g ∧ (g.powercf 0).theta = 0)
    ∧ (∀ (g : ControlledPhaseShift) (k : ℝ),
        (g.powercf k).theta = k * g.theta ∧ (g.powercf k).control = g.control
        ∧ (g.powercf k).target = g.target
        ∧ g.powercf 1 = g ∧ (g.powercf 0).theta = 0)
    ∧ (∀ (g : VariableMSXX) (k : ℝ),
        (g.powercf k).theta = k * g.theta ∧ (g.powercf k).control = g.control
        ∧ (g.powercf k).target = g.target
        ∧ g.powercf 1 = g ∧ (g.powercf 0).theta = 0)
    ∧ (∀ (g : GivensRotation) (k : ℝ),
        (g.powercf k).theta = k * g.theta ∧ (g.powercf k).control = g.control
        ∧ (g.powercf k).target = g.target ∧ (g.powercf k).phi = g.phi
        ∧ g.powercf 1 = g ∧ (g.powercf 0).theta = 0)
    ∧ (∀ (g : GivensRotationLittleEndian) (k : ℝ),
        (g.powercf k).theta = k * g.theta ∧ (g.powercf k).control = g.control
        ∧ (g.powercf k).target = g.target ∧ (g.powercf k).phi = g.phi
        ∧ g.powercf 1 = g ∧ (g.powercf 0).theta = 0)
    ∧ (∀ (g : MultiQubitMS) (k : CalculatorFloat),
        (g.powercf k).theta = k.mul g.theta ∧ (g.powercf k).qubits = g.qubits)
    ∧ (∀ (g : MultiQubitZZ) (k : CalculatorFloat),
        (g.powercf k).theta = k.mul g.theta ∧ (g.powercf k).qubits = g.qubits)
    ∧ (∀ (g : MultiQubitMS) (x : ℝ), g.theta = .Float x →
        g.powercf (.Float 1) = g ∧ (g.powercf (.Float 0)).theta = .Float 0)
    ∧ (∀ (g : MultiQubitZZ) (x : ℝ), g.theta = .Float x →
        g.powercf (.Float 1) = g ∧ (g.powercf (.Float 0)).theta = .Float 0) := by
  refine ⟨?_, ?_, ?_, ?_, ?_, ?_, ?_, ?_, ?_⟩
  · intro g k
    exact ⟨rfl, rfl, rfl, by cases g; simp [XY.powercf], by simp [XY.powercf]⟩
  · intro g k
    exact ⟨rfl, rfl, rfl, by cases g; simp [ControlledPhaseShift.powercf],
      by simp [ControlledPhaseShift.powercf]⟩
  · intro g k
    exact ⟨rfl, rfl, rfl, by cases g; simp [VariableMSXX.powercf],
      by simp [VariableMSXX.powercf]⟩
  · intro g k
    exact ⟨rfl, rfl, rfl, rfl, by cases g; simp [GivensRotation.powercf],
      by simp [GivensRotation.powercf]⟩
  · intro g k
    exact ⟨rfl, rfl, rfl, rfl, by cases g; simp [GivensRotationLittleEndian.powercf],
      by simp [GivensRotationLittleEndian.powercf]⟩
  · intro g k
    exact ⟨rfl, rfl⟩
  · intro g k
    exact ⟨rfl, rfl⟩
  · intro g x hg
    obtain ⟨qs, th⟩ := g
    simp only at hg
    subst hg
    exact ⟨by simp [MultiQubitMS.powercf, CalculatorFloat.mul],
      by simp [MultiQubitMS.powercf, CalculatorFloat.mul]⟩
  · intro g x hg
    obtain ⟨qs, th⟩ := g
    simp only at hg
    subst hg
    exact ⟨by simp [MultiQubitZZ.powercf, CalculatorFloat.mul],
      by simp [MultiQubitZZ.powercf, CalculatorFloat.mul]⟩

/-- Witness for C7: a two-qubit rotation gate with a concrete angle and a
multi-qubit rotation gate with a concrete angle. -/
theorem C7_powercf_linearity_witness :
    (((XY.mk 0 1 π).powercf 2).theta = 2 * π
      ∧ ((XY.mk 0 1 π).powercf 2).control = (XY.mk 0 1 π).control
      ∧ ((XY.mk 0 1 π).powercf 2).target = (XY.mk 0 1 π).target
      ∧ (XY.mk 0 1 π).powercf 1 = XY.mk 0 1 π
      ∧ ((XY.mk 0 1 π).powercf 0).theta = 0)
    ∧ (MultiQubitZZ.mk [0, 1, 2] (.Float π)).theta = .Float π
    ∧ ((MultiQubitZZ.mk [0, 1, 2] (.Float π)).powercf (.Float 1)
          = MultiQubitZZ.mk [0, 1, 2] (.Float π)
      ∧ ((MultiQubitZZ.mk [0, 1, 2] (.Float π)).powercf (.Float 0)).theta = .Float 0) := by
  obtain ⟨hxy, hcps, hvms, hgr, hgrle, hms, hzz, hmsc, hzzc⟩ := C7_powercf_linearity
  exact ⟨hxy (XY.mk 0 1 π) 2, rfl, hzzc (MultiQubitZZ.mk [0, 1, 2] (.Float π)) π rfl⟩

/-- Counterexample to the symbolic part of C7: with a symbolic angle,
`powercf(1)` is not structurally equal to the original gate, and
`powercf(0).theta()` is not the concrete `0` — both scalar products stay
opaque symbolic expressions. -/
theorem C7_counterexample :
    (MultiQubitZZ.mk [0, 1, 2] (.Symbolic (.var "theta"))).powercf (.Float 1)
      ≠ MultiQubitZZ.mk [0, 1, 2] (.Symbolic (.var "theta"))
    ∧ ((MultiQubitZZ.mk [0, 1, 2] (.Symbolic (.var "theta"))).powercf (.Float 0)).theta
      ≠ CalculatorFloat.Float 0 := by
  constructor
  · intro hc
    have h := congrArg MultiQubitZZ.theta hc
    simp [MultiQubitZZ.powercf, CalculatorFloat.mul, CalculatorFloat.toExpr] at h
  · intro hc
    simp [MultiQubitZZ.powercf, CalculatorFloat.mul, CalculatorFloat.toExpr] at hc

/-- C8: `PhaseShiftedControlledZ` at `φ = 0` is `diag(1,1,1,−1)`, which is the
`ControlledPauliZ` unitary. -/
theorem C8_pscz_at_zero_is_cpz (c t : ℕ) :
    (PhaseShiftedControlledZ.mk c t 0).unitary_matrix = Matrix.diagonal ![1, 1, 1, -1]
    ∧ (PhaseShiftedControlledZ.mk c t 0).unitary_matrix
      = (ControlledPauliZ.mk c t).unitary_matrix := by
  have h : (2*(0:ℝ) - π) = -π := by ring
  constructor <;>
    simp [PhaseShiftedControlledZ.unitary_matrix, ControlledPauliZ.unitary_matrix, h,
      diag4, Real.cos_neg, Real.sin_neg, Real.cos_pi, Real.sin_pi]

/-- C9: every gate's tags begin with `"Operation", "GateOperation"` and end
with its `hqslang`; rotation-carrying two-qubit gates put `"Rotation"` right
before the name; multi-qubit gates put `"MultiQubitGateOperation"` third where
two-qubit gates put `"TwoQubitGateOperation"`. -/
theorem C9_tags_structure (G : GateOperation) :
    G.tags.take 2 = ["Operation", "GateOperation"]
    ∧ G.tags.getLast? = some G.hqslang
    ∧ (G.isTwoQubitRotation = true →
        G.tags = ["Operation", "GateOperation", "TwoQubitGateOperation", "Rotation",
          G.hqslang])
    ∧ (G.isMultiQubit = true → G.tags[2]? = some "MultiQubitGateOperation")
    ∧ (G.isMultiQubit = false → G.tags[2]? = some "TwoQubitGateOperation") := by
  cases G with
  | twoQubit g =>
    cases g <;>
      (refine ⟨?_, ?_, ?_, ?_, ?_⟩ <;>
        simp only [GateOperation.tags, TwoQubitGateOperation.tags, GateOperation.hqslang,
          TwoQubitGateOperation.hqslang, GateOperation.isMultiQubit,
          GateOperation.isTwoQubitRotation, TwoQubitGateOperation.isRotation] <;>
        decide)
  | multiMS g =>
    refine ⟨?_, ?_, ?_, ?_, ?_⟩ <;>
      simp only [GateOperation.tags, GateOperation.hqslang, GateOperation.isMultiQubit,
        GateOperation.isTwoQubitRotation] <;>
      decide
  | multiZZ g =>
    refine ⟨?_, ?_, ?_, ?_, ?_⟩ <;>
      simp only [GateOperation.tags, GateOperation.hqslang, GateOperation.isMultiQubit,
        GateOperation.isTwoQubitRotation] <;>
      decide
  | multiCNOT g =>
    refine ⟨?_, ?_, ?_, ?_, ?_⟩ <;>
      simp only [GateOperation.tags, GateOperation.hqslang, GateOperation.isMultiQubit,
        GateOperation.isTwoQubitRotation] <;>
      decide

/-- Witness for C9 at the rotation gate `XY(0, 1, 0)`. -/
theorem C9_tags_structure_witness :
    (GateOperation.twoQubit (.xy ⟨0, 1, 0⟩)).tags.take 2 = ["Operation", "GateOperation"]
    ∧ (GateOperation.twoQubit (.xy ⟨0, 1, 0⟩)).tags.getLast?
      = some (GateOperation.twoQubit (.xy ⟨0, 1, 0⟩)).hqslang
    ∧ ((GateOperation.twoQubit (.xy ⟨0, 1, 0⟩)).isTwoQubitRotation = true →
        (GateOperation.twoQubit (.xy ⟨0, 1, 0⟩)).tags
          = ["Operation", "GateOperation", "TwoQubitGateOperation", "Rotation",
            (GateOperation.twoQubit (.xy ⟨0, 1, 0⟩)).hqslang])
    ∧ ((GateOperation.twoQubit (.xy ⟨0, 1, 0⟩)).isMultiQubit = true →
        (GateOperation.twoQubit (.xy ⟨0, 1, 0⟩)).tags[2]? = some "MultiQubitGateOperation")
    ∧ ((GateOperation.twoQubit (.xy ⟨0, 1, 0⟩)).isMultiQubit = false →
        (GateOperation.twoQubit (.xy ⟨0, 1, 0⟩)).tags[2]? = some "TwoQubitGateOperation") :=
  C9_tags_structure (GateOperation.twoQubit (.xy ⟨0, 1, 0⟩))

/-- C10: no unitary depends on the qubit indices — rebuilding any two-qubit
gate on other wires leaves `unitary_matrix` unchanged, and the multi-qubit
unitaries agree whenever the qubit lists have equal length. -/
theorem C10_unitary_independent_of_qubit_indices :
    (∀ (G : TwoQubitGateOperation) (c t : ℕ),
        (G.withQubits c t).unitary_matrix = G.unitary_matrix)
    ∧ (∀ (qs qsb : List ℕ) (th : CalculatorFloat), qs.length = qsb.length →
        HEq (MultiQubitMS.mk qs th).unitary_matrix (MultiQubitMS.mk qsb th).unitary_matrix)
    ∧ (∀ (qs qsb : List ℕ) (th : CalculatorFloat), qs.length = qsb.length →
        HEq (MultiQubitZZ.mk qs th).unitary_matrix (MultiQubitZZ.mk qsb th).unitary_matrix)
    ∧ (∀ (qs qsb : List ℕ), qs.length = qsb.length →
        HEq (MultiCNOT.mk qs).unitary_matrix (MultiCNOT.mk qsb).unitary_matrix) := by
  refine ⟨?_, ?_, ?_, ?_⟩
  · intro G c t
    cases G <;> rfl
  · intro qs qsb th h
    cases th <;> (dsimp [MultiQubitMS.unitary_matrix]; rw [h])
  · intro qs qsb th h
    cases th <;> (dsimp [MultiQubitZZ.unitary_matrix]; rw [h])
  · intro qs qsb h
    dsimp [MultiCNOT.unitary_matrix]
    rw [h]

/-- Witness for C10 on concrete wires and lists. -/
theorem C10_unitary_independent_of_qubit_indices_witness :
    ((TwoQubitGateOperation.xy ⟨0, 1, π⟩).withQubits 4 7).unitary_matrix
      = (TwoQubitGateOperation.xy ⟨0, 1, π⟩).unitary_matrix
    ∧ ([0, 1] : List ℕ).length = ([3, 5] : List ℕ).length
    ∧ HEq (MultiQubitMS.mk [0, 1] (.Float 1)).unitary_matrix
        (MultiQubitMS.mk [3, 5] (.Float 1)).unitary_matrix :=
  ⟨C10_unitary_independent_of_qubit_indices.1 (.xy ⟨0, 1, π⟩) 4 7, rfl,
    C10_unitary_independent_of_qubit_indices.2.1 [0, 1] [3, 5] (.Float 1) rfl⟩

end Roqoqo
